import Mathlib

/-!
Verification of the OneHive service-marketplace backend core: the
service-request lifecycle (accept / reject / start / complete / rate),
the live-tracking store (create / update-location / update-status / end),
and Haversine proximity matching.

The definitions below are a shallow embedding of the JavaScript route
handlers and mongoose schemas:
  * `calculateDistance` embeds `utils/helpers.js` `calculateDistance`
    (the `let a` intermediate is named `haverA`);
  * `acceptService`, `rejectService`, `startService`, `completeService`,
    `rateService` embed `routes/services.js`;
  * `createTracking`, `updateLocation`, `updateTrackingStatus`,
    `endTracking` embed `routes/tracking.js`;
  * `nearbyPendingRequests` embeds the MongoDB `$near`/`$maxDistance`
    query of `GET /api/services/nearby/requests`, with the spherical
    distance realised by the repository's own Haversine function and the
    radius in kilometres;
  * `availableRequests` embeds `GET /api/workers/available/requests`
    (routes/worker.js, whose source is embedded in backend/README.md):
    the profession/status query followed by the in-process distance
    filter that passes a request at exactly (0,0) unconditionally and
    otherwise requires Haversine distance from the worker's stored
    location to be at most the worker serviceArea.
Document ids are natural numbers, timestamps are natural numbers passed
in as `now`, coordinates are rationals (cast to reals for distance).
JavaScript truthiness of optional strings (empty string is falsy) is
modelled by `jsOrString`.
-/

namespace OneHive

/-- `status` enum of the ServiceRequest schema. -/
inductive RequestStatus
  | pending
  | accepted
  | rejected
  | in_progress
  | completed
  | cancelled
deriving DecidableEq, Repr

/-- `status` enum of the Tracking schema. -/
inductive TrackingStatus
  | en_route
  | arrived
  | working
  | completed
deriving DecidableEq, Repr

/-- `serviceType` / `profession` enum shared by ServiceRequest and Worker. -/
inductive Profession
  | plumber
  | electrician
  | carpenter
  | painter
  | cleaner
  | driver
  | mechanic
  | appliance
  | pest_control
  | other
deriving DecidableEq, Repr

/-- User roles relevant to the lifecycle routes. -/
inductive Role
  | customer
  | worker
  | admin
  | shop
deriving DecidableEq, Repr

/-- A GeoJSON point: `coordinates` are stored `[longitude, latitude]`. -/
structure GeoPoint where
  lng : ℚ
  lat : ℚ
deriving DecidableEq, Repr

/-- One entry of `Tracking.locationHistory`. -/
structure HistoryEntry where
  coordinates : GeoPoint
  address : String
  timestamp : Nat
deriving DecidableEq, Repr

/-- The ServiceRequest document (models/ServiceRequest.js). -/
structure ServiceRequest where
  id : Nat
  customer : Nat
  worker : Option Nat := none
  serviceType : Profession
  location : GeoPoint := ⟨0, 0⟩
  status : RequestStatus := RequestStatus.pending
  estimatedCost : ℚ := 0
  acceptedAt : Option Nat := none
  startedAt : Option Nat := none
  completedAt : Option Nat := none
  cancelledAt : Option Nat := none
  cancellationReason : Option String := none
  customerRating : Option Nat := none
  customerReview : Option String := none
  workerRating : Option Nat := none
  workerReview : Option String := none
deriving DecidableEq, Repr

/-- The Worker document (models/Worker.js), restricted to the fields the
lifecycle/tracking/matching core reads or writes. -/
structure Worker where
  id : Nat
  user : Nat
  profession : Profession
  location : GeoPoint := ⟨0, 0⟩
  locationAddress : String := ""
  serviceArea : ℚ := 10
  isVerified : Bool := false
  isAvailable : Bool := true
  completedJobs : Nat := 0
  ratingAverage : ℚ := 0
  ratingCount : Nat := 0
deriving DecidableEq, Repr

/-- The Tracking document (models/Tracking.js). -/
structure Tracking where
  id : Nat
  serviceRequest : Nat
  worker : Nat
  customer : Nat
  currentLocation : GeoPoint := ⟨0, 0⟩
  currentAddress : String := ""
  destination : GeoPoint := ⟨0, 0⟩
  status : TrackingStatus := TrackingStatus.en_route
  isLive : Bool := true
  locationHistory : List HistoryEntry := []
  endedAt : Option Nat := none
deriving DecidableEq, Repr

/-- The Review document (models/Review.js). -/
structure Review where
  serviceRequest : Nat
  reviewer : Nat
  reviewee : Nat
  worker : Option Nat := none
  rating : Nat
  review : String := ""
  reviewType : String
deriving DecidableEq, Repr

/-- An authenticated caller as supplied by the auth middleware. -/
structure Caller where
  id : Nat
  role : Role
deriving DecidableEq, Repr

/-- The document store: all collections the core touches.  `nextTrackingId`
models MongoDB object-id generation for newly created Tracking documents. -/
structure DB where
  requests : List ServiceRequest := []
  workers : List Worker := []
  trackings : List Tracking := []
  reviews : List Review := []
  nextTrackingId : Nat := 0
deriving DecidableEq, Repr

/-- The `{success, message}` response envelope plus HTTP status code. -/
structure ApiResponse where
  statusCode : Nat
  success : Bool
  message : String
deriving DecidableEq, Repr

def ok200 (msg : String) : ApiResponse := ⟨200, true, msg⟩

def created201 (msg : String) : ApiResponse := ⟨201, true, msg⟩

def apiErr (code : Nat) (msg : String) : ApiResponse := ⟨code, false, msg⟩

/-- `ServiceRequest.findById`. -/
def findRequest (db : DB) (i : Nat) : Option ServiceRequest :=
  db.requests.find? (fun r => r.id == i)

/-- `Worker.findOne({user})`. -/
def findWorkerByUser (db : DB) (u : Nat) : Option Worker :=
  db.workers.find? (fun w => w.user == u)

/-- `Worker.findById`. -/
def findWorkerById (db : DB) (i : Nat) : Option Worker :=
  db.workers.find? (fun w => w.id == i)

/-- `Tracking.findById`. -/
def findTracking (db : DB) (i : Nat) : Option Tracking :=
  db.trackings.find? (fun t => t.id == i)

/-- Persisting a mutated ServiceRequest document (`serviceRequest.save()`). -/
def saveRequest (db : DB) (sr : ServiceRequest) : DB :=
  { db with requests := db.requests.map (fun r => if r.id == sr.id then sr else r) }

/-- Persisting a mutated Worker document (`worker.save()`). -/
def saveWorker (db : DB) (w : Worker) : DB :=
  { db with workers := db.workers.map (fun x => if x.id == w.id then w else x) }

/-- Persisting a mutated Tracking document (`tracking.save()`). -/
def saveTracking (db : DB) (t : Tracking) : DB :=
  { db with trackings := db.trackings.map (fun x => if x.id == t.id then t else x) }

/-- `findOneAndUpdate`: update the first list element satisfying `p`. -/
def updateFirst {α : Type} (p : α → Bool) (f : α → α) : List α → List α
  | [] => []
  | a :: l => if p a then f a :: l else a :: updateFirst p f l

/-- JavaScript `s || d` for an optional string: `undefined` and the empty
string are both falsy. -/
def jsOrString (s : Option String) (d : String) : String :=
  match s with
  | none => d
  | some t => if t == "" then d else t

/-- `toRadians(degrees)`. -/
noncomputable def toRadians (degrees : ℝ) : ℝ := degrees * (Real.pi / 180)

/-- JavaScript `Math.atan2(y, x)`. -/
noncomputable def atan2 (y x : ℝ) : ℝ :=
  if 0 < x then Real.arctan (y / x)
  else if x < 0 ∧ 0 ≤ y then Real.arctan (y / x) + Real.pi
  else if x < 0 ∧ y < 0 then Real.arctan (y / x) - Real.pi
  else if x = 0 ∧ 0 < y then Real.pi / 2
  else if x = 0 ∧ y < 0 then -(Real.pi / 2)
  else 0

/-- The intermediate `a` of `calculateDistance`:
`sin(dLat/2)*sin(dLat/2) + cos(toRadians(lat1))*cos(toRadians(lat2))*sin(dLon/2)*sin(dLon/2)`. -/
noncomputable def haverA (lat1 lon1 lat2 lon2 : ℝ) : ℝ :=
  Real.sin (toRadians (lat2 - lat1) / 2) * Real.sin (toRadians (lat2 - lat1) / 2) +
    Real.cos (toRadians lat1) * Real.cos (toRadians lat2) *
      (Real.sin (toRadians (lon2 - lon1) / 2) * Real.sin (toRadians (lon2 - lon1) / 2))

/-- `calculateDistance(lat1, lon1, lat2, lon2)`: Haversine distance on a
sphere of radius `R = 6371` km. -/
noncomputable def calculateDistance (lat1 lon1 lat2 lon2 : ℝ) : ℝ :=
  6371 * (2 * atan2 (Real.sqrt (haverA lat1 lon1 lat2 lon2))
                    (Real.sqrt (1 - haverA lat1 lon1 lat2 lon2)))

/-- `PUT /api/services/:id/accept` (worker only). -/
def acceptService (db : DB) (c : Caller) (reqId now : Nat) : ApiResponse × DB :=
  if c.role ≠ Role.worker then (apiErr 403 "Forbidden", db)
  else
    match findRequest db reqId with
    | none => (apiErr 404 "Service request not found", db)
    | some sr =>
      if sr.status ≠ RequestStatus.pending then
        (apiErr 400 "This service request is no longer available", db)
      else
        match findWorkerByUser db c.id with
        | none => (apiErr 404 "Worker profile not found", db)
        | some w =>
          let sr2 := { sr with
            worker := some w.id
            status := RequestStatus.accepted
            acceptedAt := some now }
          let w2 := { w with completedJobs := w.completedJobs + 1 }
          (ok200 "Service request accepted", saveWorker (saveRequest db sr2) w2)

/-- `PUT /api/services/:id/reject` (any authenticated caller; no status
check appears in the handler). -/
def rejectService (db : DB) (c : Caller) (reqId : Nat)
    (cancellationReason : Option String) (now : Nat) : ApiResponse × DB :=
  match findRequest db reqId with
  | none => (apiErr 404 "Service request not found", db)
  | some sr =>
    let isWorker := match sr.worker with
      | some wid => wid == c.id
      | none => false
    let isCustomer := sr.customer == c.id
    if !isWorker && !isCustomer && c.role != Role.admin then
      (apiErr 403 "Not authorized to reject this service request", db)
    else
      let sr2 :=
        if isWorker then
          { sr with
            status := RequestStatus.rejected
            cancellationReason := some (jsOrString cancellationReason "Rejected by worker") }
        else if isCustomer then
          { sr with
            status := RequestStatus.cancelled
            cancellationReason := some (jsOrString cancellationReason "Cancelled by customer") }
        else sr
      let sr3 := { sr2 with cancelledAt := some now }
      (ok200 (if isWorker then "Service request rejected" else "Service request cancelled"),
        saveRequest db sr3)

/-- `PUT /api/services/:id/start` (worker only).  When the request has no
assigned worker, `serviceRequest.worker.toString()` throws a TypeError that
the error middleware surfaces as a 500.  The created Tracking document gets
the schema defaults `isLive = true` and `locationHistory = []`. -/
def startService (db : DB) (c : Caller) (reqId now : Nat) : ApiResponse × DB :=
  if c.role ≠ Role.worker then (apiErr 403 "Forbidden", db)
  else
    match findRequest db reqId with
    | none => (apiErr 404 "Service request not found", db)
    | some sr =>
      match findWorkerByUser db c.id with
      | none => (apiErr 403 "Not authorized to start this service", db)
      | some w =>
        match sr.worker with
        | none => (apiErr 500 "Server error", db)
        | some wid =>
          if wid ≠ w.id then (apiErr 403 "Not authorized to start this service", db)
          else if sr.status ≠ RequestStatus.accepted then
            (apiErr 400 "Service must be accepted before starting", db)
          else
            let sr2 := { sr with
              status := RequestStatus.in_progress
              startedAt := some now }
            let t : Tracking := {
              id := db.nextTrackingId
              serviceRequest := sr.id
              worker := w.id
              customer := sr.customer
              currentLocation := w.location
              currentAddress := w.locationAddress
              destination := sr.location
              status := TrackingStatus.en_route }
            let db1 := saveRequest db sr2
            (ok200 "Service started",
              { db1 with
                trackings := db1.trackings ++ [t]
                nextTrackingId := db1.nextTrackingId + 1 })

/-- `PUT /api/services/:id/complete` (worker only).  `if (actualCost)` is
JavaScript truthiness: an absent or zero cost leaves `estimatedCost`
unchanged.  The associated tracking is ended with `findOneAndUpdate`. -/
def completeService (db : DB) (c : Caller) (reqId : Nat) (actualCost : Option ℚ)
    (now : Nat) : ApiResponse × DB :=
  if c.role ≠ Role.worker then (apiErr 403 "Forbidden", db)
  else
    match findRequest db reqId with
    | none => (apiErr 404 "Service request not found", db)
    | some sr =>
      match findWorkerByUser db c.id with
      | none => (apiErr 403 "Not authorized to complete this service", db)
      | some w =>
        match sr.worker with
        | none => (apiErr 500 "Server error", db)
        | some wid =>
          if wid ≠ w.id then (apiErr 403 "Not authorized to complete this service", db)
          else if sr.status ≠ RequestStatus.in_progress then
            (apiErr 400 "Service must be in progress to complete", db)
          else
            let sr2 := { sr with
              status := RequestStatus.completed
              completedAt := some now
              estimatedCost := match actualCost with
                | some a => if a == 0 then sr.estimatedCost else a
                | none => sr.estimatedCost }
            let db1 := saveRequest db sr2
            let db2 := { db1 with
              trackings := updateFirst (fun t => t.serviceRequest == sr.id)
                (fun t => { t with
                  isLive := false
                  status := TrackingStatus.completed
                  endedAt := some now }) db1.trackings }
            (ok200 "Service completed successfully", db2)

/-- `Math.round(avg * 10) / 10` on the review average. -/
def jsRound1 (q : ℚ) : ℚ := ((⌊q * 10 + 1 / 2⌋ : ℤ) : ℚ) / 10

/-- `Review.updateRating(workerId, kind)` for a worker target: recompute
the running average and count over active reviews of that worker. -/
def updateWorkerRating (db : DB) (wid : Nat) : DB :=
  let matching := db.reviews.filter (fun rv => rv.worker == some wid)
  if matching.length == 0 then db
  else
    let avg := jsRound1 ((matching.map (fun rv => (rv.rating : ℚ))).sum / matching.length)
    { db with
      workers := db.workers.map (fun w =>
        if w.id == wid then { w with ratingAverage := avg, ratingCount := matching.length }
        else w) }

/-- `PUT /api/services/:id/rate`.  Only the `customer_to_worker` direction
is implemented; any other direction or caller falls through to the final
save and success response without writing a rating.  `customerRating` is
1 to 5 by schema validation, so JavaScript truthiness of the
already-rated check coincides with presence.  When the customer branch
runs with no resolvable worker, `worker.user` throws and the error
middleware answers 500 before the save. -/
def rateService (db : DB) (c : Caller) (reqId rating : Nat) (review : Option String)
    (reviewType : String) (now : Nat) : ApiResponse × DB :=
  match findRequest db reqId with
  | none => (apiErr 404 "Service request not found", db)
  | some sr =>
    if sr.status ≠ RequestStatus.completed then
      (apiErr 400 "Can only rate completed services", db)
    else if sr.customerRating.isSome then
      (apiErr 400 "Service already rated", db)
    else
      let isCustomer := sr.customer == c.id
      if isCustomer && reviewType == "customer_to_worker" then
        match sr.worker.bind (fun wid => findWorkerById db wid) with
        | none => (apiErr 500 "Server error", db)
        | some w =>
          let sr2 := { sr with
            customerRating := some rating
            customerReview := some (review.getD "") }
          let rv : Review := {
            serviceRequest := sr.id
            reviewer := c.id
            reviewee := w.user
            worker := some w.id
            rating := rating
            review := review.getD ""
            reviewType := "customer_to_worker" }
          let db1 := updateWorkerRating { db with reviews := db.reviews ++ [rv] } w.id
          (ok200 "Rating submitted successfully", saveRequest db1 sr2)
      else
        (ok200 "Rating submitted successfully", saveRequest db sr)

/-- `POST /api/tracking` (worker only): explicit tracking-session creation.
Checks for an existing live record before creating; seeds
`locationHistory` with one entry. -/
def createTracking (db : DB) (c : Caller) (serviceRequestId : Nat)
    (coordinates : Option GeoPoint) (address : Option String) (now : Nat) :
    ApiResponse × DB :=
  if c.role ≠ Role.worker then (apiErr 403 "Forbidden", db)
  else
    match findRequest db serviceRequestId with
    | none => (apiErr 404 "Service request not found", db)
    | some sr =>
      match findWorkerByUser db c.id with
      | none => (apiErr 404 "Worker profile not found", db)
      | some w =>
        if (db.trackings.find? (fun t => t.serviceRequest == serviceRequestId && t.isLive)).isSome then
          (apiErr 400 "Tracking already active for this service", db)
        else
          let loc := coordinates.getD ⟨0, 0⟩
          let t : Tracking := {
            id := db.nextTrackingId
            serviceRequest := serviceRequestId
            worker := w.id
            customer := sr.customer
            currentLocation := loc
            currentAddress := address.getD ""
            destination := sr.location
            status := TrackingStatus.en_route
            isLive := true
            locationHistory := [{ coordinates := loc, address := address.getD "", timestamp := now }] }
          (created201 "Tracking started",
            { db with
              trackings := db.trackings ++ [t]
              nextTrackingId := db.nextTrackingId + 1 })

/-- `PUT /api/tracking/:id/location` (worker only): overwrite
`currentLocation`, append to `locationHistory`, and mirror the coordinates
into the worker profile.  The history entry is built after
`currentLocation` has been reassigned, so it always records the new
position. -/
def updateLocation (db : DB) (c : Caller) (trackingId : Nat)
    (coordinates : Option GeoPoint) (address : Option String) (now : Nat) :
    ApiResponse × DB :=
  if c.role ≠ Role.worker then (apiErr 403 "Forbidden", db)
  else
    match findTracking db trackingId with
    | none => (apiErr 404 "Tracking not found", db)
    | some t =>
      match findWorkerByUser db c.id with
      | none => (apiErr 403 "Not authorized to update this tracking", db)
      | some w =>
        if t.worker ≠ w.id then (apiErr 403 "Not authorized to update this tracking", db)
        else
          let newCoords := coordinates.getD t.currentLocation
          let newAddr := jsOrString address t.currentAddress
          let t2 := { t with
            currentLocation := newCoords
            currentAddress := newAddr
            locationHistory := t.locationHistory ++
              [{ coordinates := newCoords, address := newAddr, timestamp := now }] }
          let w2 := { w with
            location := coordinates.getD w.location
            locationAddress := jsOrString address w.locationAddress }
          (ok200 "Location updated", saveTracking (saveWorker db w2) t2)

/-- Parse the request-body `status` string against the valid set. -/
def parseTrackingStatus (s : String) : Option TrackingStatus :=
  if s == "en_route" then some TrackingStatus.en_route
  else if s == "arrived" then some TrackingStatus.arrived
  else if s == "working" then some TrackingStatus.working
  else if s == "completed" then some TrackingStatus.completed
  else none

/-- `PUT /api/tracking/:id/status` (worker only).  Any status in the valid
set is accepted at any time; `arrived` mirrors the parent request to
`in_progress` unconditionally, `completed` ends the session. -/
def updateTrackingStatus (db : DB) (c : Caller) (trackingId : Nat) (status : String)
    (now : Nat) : ApiResponse × DB :=
  if c.role ≠ Role.worker then (apiErr 403 "Forbidden", db)
  else
    match findTracking db trackingId with
    | none => (apiErr 404 "Tracking not found", db)
    | some t =>
      match findWorkerByUser db c.id with
      | none => (apiErr 403 "Not authorized to update this tracking", db)
      | some w =>
        if t.worker ≠ w.id then (apiErr 403 "Not authorized to update this tracking", db)
        else
          match parseTrackingStatus status with
          | none => (apiErr 400 "Invalid status", db)
          | some st =>
            let t2 :=
              if st = TrackingStatus.completed then
                { t with status := st, isLive := false, endedAt := some now }
              else { t with status := st }
            let db1 := saveTracking db t2
            let db2 :=
              if st = TrackingStatus.arrived then
                { db1 with
                  requests := db1.requests.map (fun r =>
                    if r.id == t.serviceRequest then { r with status := RequestStatus.in_progress }
                    else r) }
              else db1
            (ok200 "Status updated", db2)

/-- `PUT /api/tracking/:id/end` (worker only): force the session closed
independent of its current status. -/
def endTracking (db : DB) (c : Caller) (trackingId now : Nat) : ApiResponse × DB :=
  if c.role ≠ Role.worker then (apiErr 403 "Forbidden", db)
  else
    match findTracking db trackingId with
    | none => (apiErr 404 "Tracking not found", db)
    | some t =>
      match findWorkerByUser db c.id with
      | none => (apiErr 403 "Not authorized to end this tracking", db)
      | some w =>
        if t.worker ≠ w.id then (apiErr 403 "Not authorized to end this tracking", db)
        else
          (ok200 "Tracking ended",
            saveTracking db { t with
              isLive := false
              status := TrackingStatus.completed
              endedAt := some now })

/-- The `ServiceRequest.find` query with `serviceType`, `status: pending`
and a `$near`/`$maxDistance` geospatial clause.  The spherical distance of
the 2dsphere index is realised by the repository's own Haversine function
with the radius in kilometres; the caller passes `(latitude, longitude)`
and each candidate contributes `(coordinates[1], coordinates[0])`, exactly
as in the `calculateDistance` call of routes/shop.js. -/
noncomputable def nearbyPendingRequests (db : DB) (w : Worker) (lat lon radius : ℝ) :
    List ServiceRequest :=
  db.requests.filter (fun r =>
    r.serviceType == w.profession && r.status == RequestStatus.pending &&
      decide (calculateDistance lat lon (r.location.lat : ℝ) (r.location.lng : ℝ) ≤ radius))

/-- The full `GET /api/services/nearby/requests` handler. -/
noncomputable def getNearbyRequests (db : DB) (c : Caller)
    (latitude longitude : Option ℝ) (radius : ℝ) : ApiResponse × List ServiceRequest :=
  if c.role ≠ Role.worker then (apiErr 403 "Forbidden", [])
  else
    match latitude, longitude with
    | some lat, some lon =>
      match findWorkerByUser db c.id with
      | none => (apiErr 404 "Worker profile not found", [])
      | some w => (ok200 "", nearbyPendingRequests db w lat lon radius)
    | _, _ => (apiErr 400 "Latitude and longitude are required", [])

/-- One inbound API call of the embedded lifecycle/tracking core. -/
inductive Op
  | accept (c : Caller) (reqId now : Nat)
  | reject (c : Caller) (reqId : Nat) (reason : Option String) (now : Nat)
  | start (c : Caller) (reqId now : Nat)
  | complete (c : Caller) (reqId : Nat) (actualCost : Option ℚ) (now : Nat)
  | rate (c : Caller) (reqId rating : Nat) (review : Option String) (reviewType : String)
      (now : Nat)
  | createTrack (c : Caller) (serviceRequestId : Nat) (coordinates : Option GeoPoint)
      (address : Option String) (now : Nat)
  | updateLoc (c : Caller) (trackingId : Nat) (coordinates : Option GeoPoint)
      (address : Option String) (now : Nat)
  | updateTrackStatus (c : Caller) (trackingId : Nat) (status : String) (now : Nat)
  | endTrack (c : Caller) (trackingId now : Nat)

/-- Dispatch an operation to its route handler. -/
def applyOp (db : DB) : Op → ApiResponse × DB
  | Op.accept c reqId now => acceptService db c reqId now
  | Op.reject c reqId reason now => rejectService db c reqId reason now
  | Op.start c reqId now => startService db c reqId now
  | Op.complete c reqId actualCost now => completeService db c reqId actualCost now
  | Op.rate c reqId rating review reviewType now =>
      rateService db c reqId rating review reviewType now
  | Op.createTrack c srId coordinates address now =>
      createTracking db c srId coordinates address now
  | Op.updateLoc c trackingId coordinates address now =>
      updateLocation db c trackingId coordinates address now
  | Op.updateTrackStatus c trackingId status now =>
      updateTrackingStatus db c trackingId status now
  | Op.endTrack c trackingId now => endTracking db c trackingId now

/-- Number of live tracking documents attached to one service request. -/
def liveTrackingCount (db : DB) (srId : Nat) : Nat :=
  (db.trackings.filter (fun t => t.serviceRequest == srId && t.isLive)).length

/-- Length of `locationHistory` of the first tracking document with id
`tid` (0 when absent). -/
def historyLenOf : List Tracking → Nat → Nat
  | [], _ => 0
  | t :: l, tid => if t.id == tid then t.locationHistory.length else historyLenOf l tid

def trackingHistoryLen (db : DB) (tid : Nat) : Nat :=
  historyLenOf db.trackings tid

def srC3 : ServiceRequest := { id := 1, customer := 10, serviceType := Profession.electrician }

def wC3 : Worker := { id := 2, user := 20, profession := Profession.electrician }

def dbC3 : DB := { requests := [srC3], workers := [wC3] }

def srC1 : ServiceRequest :=
  { id := 1, customer := 10, worker := some 2, serviceType := Profession.plumber,
    status := RequestStatus.completed }

def dbC1 : DB := { requests := [srC1] }

def srC1w : ServiceRequest := { id := 1, customer := 10, serviceType := Profession.cleaner }

def dbC1w : DB := { requests := [srC1w] }

def srC4 : ServiceRequest :=
  { id := 1, customer := 10, worker := some 2, serviceType := Profession.painter,
    status := RequestStatus.in_progress }

def dbC4 : DB := { requests := [srC4] }

def srC4w : ServiceRequest :=
  { id := 3, customer := 11, worker := some 7, serviceType := Profession.driver,
    status := RequestStatus.accepted }

def dbC4w : DB := { requests := [srC4w] }

def srC5 : ServiceRequest :=
  { id := 1, customer := 10, worker := some 2, serviceType := Profession.mechanic,
    status := RequestStatus.completed }

def wC5 : Worker := { id := 2, user := 20, profession := Profession.mechanic }

def dbC5 : DB := { requests := [srC5], workers := [wC5] }

def dbC5r : DB := (rateService dbC5 ⟨10, Role.customer⟩ 1 5 none "customer_to_worker" 9).2

def srC10 : ServiceRequest :=
  { id := 1, customer := 10, worker := some 2, serviceType := Profession.carpenter,
    status := RequestStatus.completed }

def dbC10 : DB := { requests := [srC10] }

def srC2 : ServiceRequest := { id := 1, customer := 10, serviceType := Profession.plumber }

def wC2 : Worker := { id := 2, user := 20, profession := Profession.plumber }

def dbC2 : DB := { requests := [srC2], workers := [wC2], nextTrackingId := 100 }

def dbC2a : DB := (acceptService dbC2 ⟨20, Role.worker⟩ 1 1).2

def dbC2b : DB := (createTracking dbC2a ⟨20, Role.worker⟩ 1 none none 2).2

def dbC2c : DB := (startService dbC2b ⟨20, Role.worker⟩ 1 3).2

def srC2acc : ServiceRequest :=
  { id := 1, customer := 10, serviceType := Profession.plumber, worker := some 2,
    status := RequestStatus.accepted, acceptedAt := some 1 }

def wC2acc : Worker :=
  { id := 2, user := 20, profession := Profession.plumber, completedJobs := 1 }

def srC6 : ServiceRequest :=
  { id := 1, customer := 10, worker := some 2, serviceType := Profession.cleaner,
    status := RequestStatus.accepted }

def wC6 : Worker := { id := 2, user := 20, profession := Profession.cleaner }

def dbC6 : DB := { requests := [srC6], workers := [wC6], nextTrackingId := 50 }

def srC7 : ServiceRequest := { id := 1, customer := 10, serviceType := Profession.plumber }

def wC7 : Worker := { id := 2, user := 20, profession := Profession.plumber }

def dbC7 : DB := { requests := [srC7], workers := [wC7] }

def srC8 : ServiceRequest :=
  { id := 1, customer := 10, serviceType := Profession.electrician, location := ⟨1, 0⟩ }

def wC8 : Worker :=
  { id := 2, user := 20, profession := Profession.electrician, serviceArea := 5 }

def dbC8 : DB := { requests := [srC8], workers := [wC8] }

/-- The per-candidate distance filter of `GET /api/workers/available/requests`
(routes/worker.js): a request stored at exactly (0,0) always passes; any
other request passes iff its Haversine distance from the worker's stored
location is at most the worker serviceArea radius. -/
noncomputable def withinServiceArea (w : Worker) (r : ServiceRequest) : Bool :=
  if r.location.lng = 0 ∧ r.location.lat = 0 then true
  else
    decide (calculateDistance (w.location.lat : ℝ) (w.location.lng : ℝ)
      (r.location.lat : ℝ) (r.location.lng : ℝ) ≤ (w.serviceArea : ℝ))

/-- `GET /api/workers/available/requests` (routes/worker.js): the
`ServiceRequest.find` profession/status query followed by the in-process
`requests.filter` over the distance rule. -/
noncomputable def availableRequests (db : DB) (w : Worker) : List ServiceRequest :=
  (db.requests.filter (fun r =>
    r.serviceType == w.profession && r.status == RequestStatus.pending)).filter
    (fun r => withinServiceArea w r)

/-- The full available-requests handler. -/
noncomputable def getAvailableRequests (db : DB) (c : Caller) :
    ApiResponse × List ServiceRequest :=
  if c.role ≠ Role.worker then (apiErr 403 "Forbidden", [])
  else
    match findWorkerByUser db c.id with
    | none => (apiErr 404 "Worker profile not found", [])
    | some w => (ok200 "", availableRequests db w)

/-- Run a sequence of operations left to right. -/
def applyOps (db : DB) : List Op → DB
  | [] => db
  | op :: rest => applyOps (applyOp db op).2 rest

/-- The locationHistory increment one operation causes for the tracking
with id `tid`: 1 for a successful UpdateLocation targeting it, 0 for
every other operation. -/
def opDelta (db : DB) (tid : Nat) : Op → Nat
  | Op.updateLoc c i coords addr now =>
      if i = tid ∧ (updateLocation db c i coords addr now).1.success = true then 1 else 0
  | _ => 0

/-- Number of successful UpdateLocation calls targeting tracking `tid`
along an operation sequence. -/
def updateLocSuccesses : DB → Nat → List Op → Nat
  | _, _, [] => 0
  | db, tid, op :: rest =>
      opDelta db tid op + updateLocSuccesses (applyOp db op).2 tid rest

def srC7b : ServiceRequest := { id := 3, customer := 11, serviceType := Profession.plumber }

def wC7b : Worker :=
  { id := 4, user := 21, profession := Profession.plumber, location := ⟨50, 40⟩,
    serviceArea := 5 }

def dbC7b : DB := { requests := [srC7b], workers := [wC7b] }

theorem haverA_self (lat lon : ℝ) : haverA lat lon lat lon = 0 := by
  unfold haverA toRadians
  simp

theorem haverA_symm (lat1 lon1 lat2 lon2 : ℝ) :
    haverA lat1 lon1 lat2 lon2 = haverA lat2 lon2 lat1 lon1 := by
  unfold haverA toRadians
  have h1 : (lat1 - lat2) * (Real.pi / 180) / 2 = -((lat2 - lat1) * (Real.pi / 180) / 2) := by
    ring
  have h2 : (lon1 - lon2) * (Real.pi / 180) / 2 = -((lon2 - lon1) * (Real.pi / 180) / 2) := by
    ring
  rw [h1, h2]
  simp only [Real.sin_neg]
  ring

theorem calculateDistance_self (lat lon : ℝ) : calculateDistance lat lon lat lon = 0 := by
  unfold calculateDistance
  rw [haverA_self]
  have h : atan2 (Real.sqrt 0) (Real.sqrt (1 - 0)) = 0 := by
    unfold atan2
    rw [Real.sqrt_zero]
    norm_num
  rw [h]
  ring

theorem calculateDistance_comm (lat1 lon1 lat2 lon2 : ℝ) :
    calculateDistance lat1 lon1 lat2 lon2 = calculateDistance lat2 lon2 lat1 lon1 := by
  unfold calculateDistance
  rw [haverA_symm]

theorem mem_nearbyPendingRequests {db : DB} {w : Worker} {lat lon radius : ℝ}
    {r : ServiceRequest} :
    r ∈ nearbyPendingRequests db w lat lon radius ↔
      r ∈ db.requests ∧ r.serviceType = w.profession ∧ r.status = RequestStatus.pending ∧
        calculateDistance lat lon (r.location.lat : ℝ) (r.location.lng : ℝ) ≤ radius := by
  simp [nearbyPendingRequests, List.mem_filter, and_assoc]

/-- Seen from the north pole, any candidate on the equator is a quarter
great circle away: the `a` intermediate evaluates to `1/2`. -/
theorem haverA_pole (lon2 : ℝ) : haverA 90 0 0 lon2 = 1 / 2 := by
  unfold haverA
  have h1 : toRadians (0 - 90) / 2 = -(Real.pi / 4) := by
    unfold toRadians
    ring
  have h3 : toRadians (90 : ℝ) = Real.pi / 2 := by
    unfold toRadians
    ring
  rw [h1, h3, Real.sin_neg, Real.sin_pi_div_four, Real.cos_pi_div_two]
  have h4 : Real.sqrt 2 * Real.sqrt 2 = 2 := Real.mul_self_sqrt (by norm_num)
  ring_nf
  nlinarith [h4]

theorem calculateDistance_pole (lon2 : ℝ) :
    calculateDistance 90 0 0 lon2 = 6371 * Real.pi / 2 := by
  unfold calculateDistance
  rw [haverA_pole]
  have h1 : (1 : ℝ) - 1 / 2 = 1 / 2 := by norm_num
  rw [h1]
  have hpos : 0 < Real.sqrt (1 / 2) := Real.sqrt_pos.mpr (by norm_num)
  unfold atan2
  rw [if_pos hpos, div_self (ne_of_gt hpos), Real.arctan_one]
  ring

theorem calculateDistance_pole_gt_ten : 10 < calculateDistance 90 0 0 0 := by
  rw [calculateDistance_pole]
  nlinarith [Real.pi_gt_three]

theorem calculateDistance_pole_gt_five : 5 < calculateDistance 90 0 0 1 := by
  rw [calculateDistance_pole]
  nlinarith [Real.pi_gt_three]

theorem calculateDistance_pole_le : calculateDistance 90 0 0 1 ≤ 20000 := by
  rw [calculateDistance_pole]
  nlinarith [Real.pi_lt_d2]

@[simp] theorem saveRequest_trackings (db : DB) (sr : ServiceRequest) :
    (saveRequest db sr).trackings = db.trackings := rfl

@[simp] theorem saveWorker_trackings (db : DB) (w : Worker) :
    (saveWorker db w).trackings = db.trackings := rfl

@[simp] theorem updateWorkerRating_trackings (db : DB) (wid : Nat) :
    (updateWorkerRating db wid).trackings = db.trackings := by
  simp only [updateWorkerRating]
  split <;> rfl

theorem find?_pred_congr {α : Type} (p q : α → Bool) (l : List α) (h : ∀ x, p x = q x) :
    l.find? p = l.find? q := by
  have hpq : p = q := funext h
  rw [hpq]

theorem find?_map_pred {α : Type} (p : α → Bool) (f : α → α) (l : List α)
    (h : ∀ x, p (f x) = p x) :
    (l.map f).find? p = (l.find? p).map f := by
  rw [List.find?_map]
  congr 1
  exact find?_pred_congr _ _ l h

theorem historyLenOf_append (l : List Tracking) (t : Tracking) (tid : Nat) :
    historyLenOf l tid ≤ historyLenOf (l ++ [t]) tid := by
  induction l with
  | nil => simp [historyLenOf]
  | cons a l ih =>
    rw [List.cons_append]
    simp only [historyLenOf]
    by_cases h : (a.id == tid) = true
    · simp [h]
    · simp only [h, if_false]
      exact ih

/-- Mapping a replacement whose target id differs from the audited id
leaves the audited history length unchanged. -/
theorem historyLenOf_map_other (l : List Tracking) (t2 : Tracking) (j tid : Nat)
    (hj : t2.id = j)
    (h : (j == tid) = false) :
    historyLenOf (l.map (fun x => if x.id == j then t2 else x)) tid =
      historyLenOf l tid := by
  induction l with
  | nil => rfl
  | cons a l ih =>
    simp only [List.map_cons, historyLenOf]
    by_cases ha2 : (a.id == j) = true
    · rw [if_pos ha2]
      have haeq : a.id = j := by simpa using ha2
      have hatid : ¬(a.id == tid) = true := by
        rw [haeq, h]
        simp
      have h2tid : ¬(t2.id == tid) = true := by
        rw [hj, h]
        simp
      rw [if_neg h2tid, if_neg hatid, ih]
    · rw [if_neg ha2]
      by_cases hatid : (a.id == tid) = true
      · rw [if_pos hatid, if_pos hatid]
      · rw [if_neg hatid, if_neg hatid, ih]

/-- Replacing the first-found document `t` by an id-preserving update `t2`
with at least as long a history never shrinks any audited history. -/
theorem historyLenOf_save (l : List Tracking) (t t2 : Tracking) (j tid : Nat)
    (hj : t2.id = j)
    (hfound : l.find? (fun x => x.id == j) = some t)
    (hlen : t.locationHistory.length ≤ t2.locationHistory.length) :
    historyLenOf l tid ≤
      historyLenOf (l.map (fun x => if x.id == j then t2 else x)) tid := by
  induction l with
  | nil => simp at hfound
  | cons a l ih =>
    simp only [List.map_cons, historyLenOf]
    by_cases ha2 : (a.id == j) = true
    · have hat : a = t := by
        rcases List.find?_cons_eq_some.mp hfound with ⟨_, hab⟩ | ⟨hna, _⟩
        · exact hab
        · simp [ha2] at hna
      have haeq : a.id = j := by simpa using ha2
      rw [if_pos ha2]
      by_cases hatid : (a.id == tid) = true
      · have h2tid : (t2.id == tid) = true := by
          rw [hj, ← haeq]
          exact hatid
        rw [if_pos hatid, if_pos h2tid, hat]
        exact hlen
      · have h2tid : ¬(t2.id == tid) = true := by
          rw [hj, ← haeq]
          exact hatid
        have hjtidf : (j == tid) = false := by
          rw [← haeq]
          simpa using hatid
        rw [if_neg hatid, if_neg h2tid, historyLenOf_map_other l t2 j tid hj hjtidf]
    · have hrest : l.find? (fun x => x.id == j) = some t := by
        rcases List.find?_cons_eq_some.mp hfound with ⟨hpa, _⟩ | ⟨_, hr⟩
        · simp [ha2] at hpa
        · exact hr
      rw [if_neg ha2]
      by_cases hatid : (a.id == tid) = true
      · rw [if_pos hatid, if_pos hatid]
      · rw [if_neg hatid, if_neg hatid]
        exact ih hrest

/-- `findOneAndUpdate` with an id- and history-preserving update leaves
every audited history length unchanged. -/
theorem historyLenOf_updateFirst (p : Tracking → Bool) (f : Tracking → Tracking)
    (l : List Tracking) (tid : Nat)
    (hid : ∀ x, (f x).id = x.id)
    (hhist : ∀ x, (f x).locationHistory = x.locationHistory) :
    historyLenOf (updateFirst p f l) tid = historyLenOf l tid := by
  induction l with
  | nil => rfl
  | cons a l ih =>
    unfold updateFirst
    by_cases hpa : p a = true
    · simp only [if_pos hpa, historyLenOf, hid, hhist]
    · simp only [if_neg hpa, historyLenOf, ih]

theorem find?_id_eq {l : List Tracking} {i : Nat} {t : Tracking}
    (h : l.find? (fun x => x.id == i) = some t) : t.id = i := by
  simpa using List.find?_some h

theorem acceptService_histLen (db : DB) (c : Caller) (reqId now tid : Nat) :
    trackingHistoryLen db tid ≤ trackingHistoryLen (acceptService db c reqId now).2 tid := by
  simp only [acceptService]
  repeat' split
  all_goals exact le_refl _

theorem rejectService_histLen (db : DB) (c : Caller) (reqId : Nat)
    (reason : Option String) (now tid : Nat) :
    trackingHistoryLen db tid ≤ trackingHistoryLen (rejectService db c reqId reason now).2 tid := by
  simp only [rejectService]
  repeat' split
  all_goals exact le_refl _

theorem rateService_histLen (db : DB) (c : Caller) (reqId rating : Nat)
    (review : Option String) (reviewType : String) (now tid : Nat) :
    trackingHistoryLen db tid ≤
      trackingHistoryLen (rateService db c reqId rating review reviewType now).2 tid := by
  simp only [rateService]
  repeat' split
  all_goals simp only [trackingHistoryLen, saveRequest_trackings, updateWorkerRating_trackings]
  all_goals exact le_refl _

theorem startService_histLen (db : DB) (c : Caller) (reqId now tid : Nat) :
    trackingHistoryLen db tid ≤ trackingHistoryLen (startService db c reqId now).2 tid := by
  simp only [startService]
  repeat' split
  all_goals simp only [trackingHistoryLen, saveRequest_trackings]
  all_goals first
    | exact le_refl _
    | exact historyLenOf_append _ _ _

theorem createTracking_histLen (db : DB) (c : Caller) (srId : Nat)
    (coordinates : Option GeoPoint) (address : Option String) (now tid : Nat) :
    trackingHistoryLen db tid ≤
      trackingHistoryLen (createTracking db c srId coordinates address now).2 tid := by
  simp only [createTracking]
  repeat' split
  all_goals simp only [trackingHistoryLen]
  all_goals first
    | exact le_refl _
    | exact historyLenOf_append _ _ _

theorem completeService_histLen (db : DB) (c : Caller) (reqId : Nat)
    (actualCost : Option ℚ) (now tid : Nat) :
    trackingHistoryLen db tid ≤
      trackingHistoryLen (completeService db c reqId actualCost now).2 tid := by
  simp only [completeService]
  repeat' split
  all_goals simp only [trackingHistoryLen, saveRequest_trackings]
  all_goals first
    | exact le_refl _
    | (rw [historyLenOf_updateFirst] <;> first | exact le_refl _ | exact fun _ => rfl)

theorem updateLocation_histLen (db : DB) (c : Caller) (trackingId : Nat)
    (coordinates : Option GeoPoint) (address : Option String) (now tid : Nat) :
    trackingHistoryLen db tid ≤
      trackingHistoryLen (updateLocation db c trackingId coordinates address now).2 tid := by
  simp only [updateLocation]
  split
  · exact le_refl _
  · split
    · exact le_refl _
    · next t heq =>
      split
      · exact le_refl _
      · next w heqw =>
        split
        · exact le_refl _
        · simp only [trackingHistoryLen, saveTracking, saveWorker]
          have htid : t.id = trackingId := find?_id_eq heq
          have hfound : db.trackings.find? (fun x => x.id == t.id) = some t := by
            rw [htid]
            exact heq
          exact historyLenOf_save db.trackings t _ t.id tid rfl hfound (by simp)

theorem updateTrackingStatus_histLen (db : DB) (c : Caller) (trackingId : Nat)
    (status : String) (now tid : Nat) :
    trackingHistoryLen db tid ≤
      trackingHistoryLen (updateTrackingStatus db c trackingId status now).2 tid := by
  simp only [updateTrackingStatus]
  split
  · exact le_refl _
  · split
    · exact le_refl _
    · next t heq =>
      split
      · exact le_refl _
      · next w heqw =>
        split
        · exact le_refl _
        · split
          · exact le_refl _
          · have htid : t.id = trackingId := find?_id_eq heq
            have hfound : db.trackings.find? (fun x => x.id == t.id) = some t := by
              rw [htid]
              exact heq
            split
            · split
              all_goals
                simp only [trackingHistoryLen, saveTracking]
                exact historyLenOf_save db.trackings t _ t.id tid rfl hfound (le_refl _)
            · split
              all_goals
                simp only [trackingHistoryLen, saveTracking]
                exact historyLenOf_save db.trackings t _ t.id tid rfl hfound (le_refl _)

theorem endTracking_histLen (db : DB) (c : Caller) (trackingId now tid : Nat) :
    trackingHistoryLen db tid ≤
      trackingHistoryLen (endTracking db c trackingId now).2 tid := by
  simp only [endTracking]
  split
  · exact le_refl _
  · split
    · exact le_refl _
    · next t heq =>
      split
      · exact le_refl _
      · next w heqw =>
        split
        · exact le_refl _
        · simp only [trackingHistoryLen, saveTracking]
          have htid : t.id = trackingId := find?_id_eq heq
          have hfound : db.trackings.find? (fun x => x.id == t.id) = some t := by
            rw [htid]
            exact heq
          exact historyLenOf_save db.trackings t _ t.id tid rfl hfound (le_refl _)

/-- No operation of the core ever shortens any locationHistory audit
trail. -/
theorem trackingHistoryLen_mono (db : DB) (op : Op) (tid : Nat) :
    trackingHistoryLen db tid ≤ trackingHistoryLen (applyOp db op).2 tid := by
  cases op with
  | accept c reqId now => exact acceptService_histLen db c reqId now tid
  | reject c reqId reason now => exact rejectService_histLen db c reqId reason now tid
  | start c reqId now => exact startService_histLen db c reqId now tid
  | complete c reqId actualCost now => exact completeService_histLen db c reqId actualCost now tid
  | rate c reqId rating review reviewType now =>
      exact rateService_histLen db c reqId rating review reviewType now tid
  | createTrack c srId coordinates address now =>
      exact createTracking_histLen db c srId coordinates address now tid
  | updateLoc c trackingId coordinates address now =>
      exact updateLocation_histLen db c trackingId coordinates address now tid
  | updateTrackStatus c trackingId status now =>
      exact updateTrackingStatus_histLen db c trackingId status now tid
  | endTrack c trackingId now => exact endTracking_histLen db c trackingId now tid

theorem findRequest_id_eq {db : DB} {i : Nat} {sr : ServiceRequest}
    (h : findRequest db i = some sr) : sr.id = i := by
  simpa using List.find?_some h

/-- Claim C3: Accept fails with a state-conflict error unless the request
is exactly pending; on success it assigns the accepting worker, sets
status accepted and acceptedAt, and increments the worker job counter by
one; on failure nothing is mutated. -/
theorem accept_service_spec (db : DB) (c : Caller) (reqId now : Nat) :
    (∀ sr, findRequest db reqId = some sr → sr.status ≠ RequestStatus.pending →
      (acceptService db c reqId now).1.success = false) ∧
    ((acceptService db c reqId now).1.success = false →
      (acceptService db c reqId now).2 = db) ∧
    (∀ sr w, c.role = Role.worker → findRequest db reqId = some sr →
      sr.status = RequestStatus.pending → findWorkerByUser db c.id = some w →
      (acceptService db c reqId now).1 = ok200 "Service request accepted" ∧
      (acceptService db c reqId now).2 =
        saveWorker
          (saveRequest db { sr with
            worker := some w.id
            status := RequestStatus.accepted
            acceptedAt := some now })
          { w with completedJobs := w.completedJobs + 1 }) := by
  refine ⟨?_, ?_, ?_⟩
  · intro sr hfind hst
    by_cases hrole : c.role ≠ Role.worker
    · simp [acceptService, hrole, apiErr]
    · simp [acceptService, hrole, hfind, hst, apiErr]
  · simp only [acceptService]
    repeat' split
    all_goals intro h
    all_goals first
      | rfl
      | simp [ok200] at h
  · intro sr w hrole hfind hst hfw
    simp [acceptService, hrole, hfind, hst, hfw]

theorem accept_service_spec_witness :
    (acceptService dbC3 ⟨20, Role.worker⟩ 1 7).1 = ok200 "Service request accepted" ∧
    (acceptService dbC3 ⟨20, Role.worker⟩ 1 7).2 =
      saveWorker
        (saveRequest dbC3 { srC3 with
          worker := some wC3.id
          status := RequestStatus.accepted
          acceptedAt := some 7 })
        { wC3 with completedJobs := wC3.completedJobs + 1 } :=
  (accept_service_spec dbC3 ⟨20, Role.worker⟩ 1 7).2.2 srC3 wC3 rfl (by decide) rfl (by decide)

/-- Claim C1 counterexample: the reject route performs no status check, so
a customer cancels an already completed request: the edge
`completed → cancelled` is taken with a success response and the record is
mutated, where the claim demands `InvalidState` and no mutation. -/
theorem reject_completed_request_succeeds :
    srC1.status = RequestStatus.completed ∧
    (rejectService dbC1 ⟨10, Role.customer⟩ 1 none 5).1.success = true ∧
    (rejectService dbC1 ⟨10, Role.customer⟩ 1 none 5).2.requests.map
        (fun r => r.status) = [RequestStatus.cancelled] := by
  decide

/-- Claim C1 (amended): Accept, Start and Complete enforce their incoming
edges (pending, accepted, in_progress respectively) and leave the store
unchanged on every failure; but Reject/Cancel performs no state check at
all, so an authorized customer moves a request from any status, including
in_progress and the terminal ones, to cancelled, and the tracking-arrived
mirror overwrites the parent request status with in_progress
unconditionally. -/
theorem lifecycle_edges_amended (db : DB) (c : Caller) (rid tid now : Nat)
    (reason : Option String) (cost : Option ℚ) :
    ((acceptService db c rid now).1.success = true →
      ∃ sr, findRequest db rid = some sr ∧ sr.status = RequestStatus.pending) ∧
    ((acceptService db c rid now).1.success = false → (acceptService db c rid now).2 = db) ∧
    ((startService db c rid now).1.success = true →
      ∃ sr, findRequest db rid = some sr ∧ sr.status = RequestStatus.accepted) ∧
    ((startService db c rid now).1.success = false → (startService db c rid now).2 = db) ∧
    ((completeService db c rid cost now).1.success = true →
      ∃ sr, findRequest db rid = some sr ∧ sr.status = RequestStatus.in_progress) ∧
    ((completeService db c rid cost now).1.success = false →
      (completeService db c rid cost now).2 = db) ∧
    (∀ sr, findRequest db rid = some sr → (∀ wid, sr.worker = some wid → wid ≠ c.id) →
      sr.customer = c.id →
      (rejectService db c rid reason now).1.success = true ∧
      (rejectService db c rid reason now).2 =
        saveRequest db { sr with
          status := RequestStatus.cancelled
          cancellationReason := some (jsOrString reason "Cancelled by customer")
          cancelledAt := some now }) ∧
    (∀ t w, findTracking db tid = some t → c.role = Role.worker →
      findWorkerByUser db c.id = some w → t.worker = w.id →
      (updateTrackingStatus db c tid "arrived" now).2.requests =
        db.requests.map (fun r =>
          if r.id == t.serviceRequest then { r with status := RequestStatus.in_progress }
          else r)) := by
  refine ⟨?_, ?_, ?_, ?_, ?_, ?_, ?_, ?_⟩
  · simp only [acceptService]
    repeat' split
    all_goals intro h
    all_goals first
      | simpa [apiErr] using h
      | exact ⟨_, by assumption, not_not.mp (by assumption)⟩
  · simp only [acceptService]
    repeat' split
    all_goals intro h
    all_goals first
      | rfl
      | simp [ok200] at h
  · simp only [startService]
    repeat' split
    all_goals intro h
    all_goals first
      | simpa [apiErr] using h
      | exact ⟨_, by assumption, not_not.mp (by assumption)⟩
  · simp only [startService]
    repeat' split
    all_goals intro h
    all_goals first
      | rfl
      | simp [ok200] at h
  · simp only [completeService]
    repeat' split
    all_goals intro h
    all_goals first
      | simpa [apiErr] using h
      | exact ⟨_, by assumption, not_not.mp (by assumption)⟩
  · simp only [completeService]
    repeat' split
    all_goals intro h
    all_goals first
      | rfl
      | simp [ok200] at h
  · intro sr hfind hw hcust
    cases hsw : sr.worker with
    | none => simp [rejectService, hfind, hsw, hcust, ok200]
    | some wid =>
      have hne := hw wid hsw
      simp [rejectService, hfind, hsw, hcust, hne, ok200]
  · intro t w hft hrole hfw htw
    have harr : parseTrackingStatus "arrived" = some TrackingStatus.arrived := by decide
    simp [updateTrackingStatus, hrole, hft, hfw, htw, harr, saveTracking]

theorem lifecycle_edges_amended_witness :
    (rejectService dbC1w ⟨10, Role.customer⟩ 1 none 5).1.success = true ∧
    (rejectService dbC1w ⟨10, Role.customer⟩ 1 none 5).2 =
      saveRequest dbC1w { srC1w with
        status := RequestStatus.cancelled
        cancellationReason := some (jsOrString none "Cancelled by customer")
        cancelledAt := some 5 } :=
  (lifecycle_edges_amended dbC1w ⟨10, Role.customer⟩ 1 0 5 none none).2.2.2.2.2.2.1
    srC1w (by decide) (fun wid h => by simp [srC1w] at h) (by decide)

/-- Claim C4 counterexample: the claim allows Reject/Cancel only from
pending or accepted, but a customer cancel of an in_progress request
succeeds and mutates the record. -/
theorem cancel_in_progress_succeeds :
    srC4.status = RequestStatus.in_progress ∧
    (rejectService dbC4 ⟨10, Role.customer⟩ 1 none 9).1.success = true ∧
    (rejectService dbC4 ⟨10, Role.customer⟩ 1 none 9).2.requests.map (fun r => r.status) =
      [RequestStatus.cancelled] := by
  decide

/-- Claim C4 (amended): the assigned worker turns the request rejected and
the requesting customer turns it cancelled, with cancelledAt and the
reason text set; a caller who is neither (and not an admin) gets
Forbidden; an admin caller passes authorization but neither branch runs,
so only cancelledAt is set; and no state restriction exists: the
operation succeeds from any status, including in_progress and the
terminal ones. -/
theorem reject_cancel_amended (db : DB) (c : Caller) (reqId : Nat)
    (reason : Option String) (now : Nat) :
    (∀ sr, findRequest db reqId = some sr → sr.worker = some c.id →
      (rejectService db c reqId reason now).1 = ok200 "Service request rejected" ∧
      (rejectService db c reqId reason now).2 =
        saveRequest db { sr with
          status := RequestStatus.rejected
          cancellationReason := some (jsOrString reason "Rejected by worker")
          cancelledAt := some now }) ∧
    (∀ sr, findRequest db reqId = some sr → (∀ wid, sr.worker = some wid → wid ≠ c.id) →
      sr.customer = c.id →
      (rejectService db c reqId reason now).1 = ok200 "Service request cancelled" ∧
      (rejectService db c reqId reason now).2 =
        saveRequest db { sr with
          status := RequestStatus.cancelled
          cancellationReason := some (jsOrString reason "Cancelled by customer")
          cancelledAt := some now }) ∧
    (∀ sr, findRequest db reqId = some sr → (∀ wid, sr.worker = some wid → wid ≠ c.id) →
      sr.customer ≠ c.id → c.role ≠ Role.admin →
      rejectService db c reqId reason now =
        (apiErr 403 "Not authorized to reject this service request", db)) ∧
    (∀ sr, findRequest db reqId = some sr → (∀ wid, sr.worker = some wid → wid ≠ c.id) →
      sr.customer ≠ c.id → c.role = Role.admin →
      (rejectService db c reqId reason now).1 = ok200 "Service request cancelled" ∧
      (rejectService db c reqId reason now).2 =
        saveRequest db { sr with cancelledAt := some now }) := by
  refine ⟨?_, ?_, ?_, ?_⟩
  · intro sr hfind hsw
    simp [rejectService, hfind, hsw, ok200]
  · intro sr hfind hw hcust
    cases hsw : sr.worker with
    | none => simp [rejectService, hfind, hsw, hcust, ok200]
    | some wid =>
      have hne := hw wid hsw
      simp [rejectService, hfind, hsw, hcust, hne, ok200]
  · intro sr hfind hw hcust hrole
    cases hsw : sr.worker with
    | none => simp [rejectService, hfind, hsw, hcust, hrole]
    | some wid =>
      have hne := hw wid hsw
      simp [rejectService, hfind, hsw, hcust, hne, hrole]
  · intro sr hfind hw hcust hrole
    cases hsw : sr.worker with
    | none => simp [rejectService, hfind, hsw, hcust, hrole, ok200]
    | some wid =>
      have hne := hw wid hsw
      simp [rejectService, hfind, hsw, hcust, hne, hrole, ok200]

theorem reject_cancel_amended_witness :
    (rejectService dbC4w ⟨7, Role.worker⟩ 3 none 4).1 = ok200 "Service request rejected" ∧
    (rejectService dbC4w ⟨7, Role.worker⟩ 3 none 4).2 =
      saveRequest dbC4w { srC4w with
        status := RequestStatus.rejected
        cancellationReason := some (jsOrString none "Rejected by worker")
        cancelledAt := some 4 } :=
  (reject_cancel_amended dbC4w ⟨7, Role.worker⟩ 3 none 4).1 srC4w (by decide) (by decide)

theorem findRequest_saveRequest (db : DB) (sr sr2 : ServiceRequest) (i : Nat)
    (h : findRequest db i = some sr) (hid : sr2.id = sr.id) :
    findRequest (saveRequest db sr2) i = some sr2 := by
  have hsri : sr.id = i := findRequest_id_eq h
  have h2 : db.requests.find? (fun r => r.id == i) = some sr := h
  show (db.requests.map (fun r => if r.id == sr2.id then sr2 else r)).find?
      (fun r => r.id == i) = some sr2
  rw [find?_map_pred]
  · rw [h2]
    simp [hid]
  · intro x
    by_cases hx : (x.id == sr2.id) = true
    · have hxe : x.id = sr2.id := by simpa using hx
      simp [hx, hxe]
    · simp [hx]

/-- Claim C5 counterexample: a worker-to-customer rating on a completed
request returns success but records nothing (workerRating stays unset, no
review is stored), and once the customer direction has been used the
worker-to-customer direction fails rather than succeeding independently. -/
theorem worker_direction_rating_writes_nothing :
    (rateService dbC5 ⟨20, Role.worker⟩ 1 4 none "worker_to_customer" 8).1.success = true ∧
    (rateService dbC5 ⟨20, Role.worker⟩ 1 4 none "worker_to_customer" 8).2.requests.map
        (fun r => r.workerRating) = [none] ∧
    (rateService dbC5 ⟨20, Role.worker⟩ 1 4 none "worker_to_customer" 8).2.reviews = [] ∧
    (rateService dbC5r ⟨20, Role.worker⟩ 1 4 none "worker_to_customer" 8).1 =
      apiErr 400 "Service already rated" := by
  decide

/-- Claim C5 (amended): rating twice in the customer-to-worker direction
fails with InvalidState, but the two directions are neither independent
nor both implemented: a worker-to-customer call returns a success
envelope while writing nothing, and once customerRating is set every
further rate call in either direction fails. -/
theorem rate_directions_amended (db : DB) (c : Caller) (reqId rating : Nat)
    (review : Option String) (reviewType : String) (now : Nat) :
    (∀ sr, findRequest db reqId = some sr → sr.status = RequestStatus.completed →
      sr.customerRating.isSome →
      rateService db c reqId rating review reviewType now =
        (apiErr 400 "Service already rated", db)) ∧
    (∀ sr, findRequest db reqId = some sr → sr.status = RequestStatus.completed →
      sr.customerRating = none → reviewType = "worker_to_customer" →
      (rateService db c reqId rating review reviewType now).1 =
        ok200 "Rating submitted successfully" ∧
      (rateService db c reqId rating review reviewType now).2 = saveRequest db sr) ∧
    (∀ sr w, findRequest db reqId = some sr → sr.status = RequestStatus.completed →
      sr.customerRating = none → sr.customer = c.id → reviewType = "customer_to_worker" →
      sr.worker = some w.id → findWorkerById db w.id = some w →
      rateService db c reqId rating review reviewType now =
        (ok200 "Rating submitted successfully",
          saveRequest
            (updateWorkerRating
              { db with reviews := db.reviews ++
                [{ serviceRequest := sr.id, reviewer := c.id, reviewee := w.user,
                   worker := some w.id, rating := rating, review := review.getD "",
                   reviewType := "customer_to_worker" }] }
              w.id)
            { sr with
              customerRating := some rating
              customerReview := some (review.getD "") })) := by
  refine ⟨?_, ?_, ?_⟩
  · intro sr hfind hst hcr
    simp [rateService, hfind, hst, hcr]
  · intro sr hfind hst hcr hrt
    have hne : ("worker_to_customer" == "customer_to_worker") = false := by decide
    simp [rateService, hfind, hst, hcr, hrt, hne, ok200]
  · intro sr w hfind hst hcr hcust hrt hsw hfw
    have heq : ("customer_to_worker" == "customer_to_worker") = true := by decide
    simp [rateService, hfind, hst, hcr, hcust, hrt, heq, hsw, hfw, ok200]

theorem rate_directions_amended_witness :
    (rateService dbC5 ⟨20, Role.worker⟩ 1 4 none "worker_to_customer" 8).1 =
      ok200 "Rating submitted successfully" ∧
    (rateService dbC5 ⟨20, Role.worker⟩ 1 4 none "worker_to_customer" 8).2 =
      saveRequest dbC5 srC5 :=
  (rate_directions_amended dbC5 ⟨20, Role.worker⟩ 1 4 none "worker_to_customer" 8).2.1
    srC5 (by decide) rfl rfl rfl

/-- Claim C10: on a completed, not-yet-rated request, a rate call whose
caller is not the customer or whose direction is not customer_to_worker
returns the success envelope while writing no rating field, creating no
review record, and leaving the request otherwise unchanged: a silent
no-op rather than a Forbidden or ValidationError failure. -/
theorem rate_mismatch_silent_noop (db : DB) (c : Caller) (reqId rating : Nat)
    (review : Option String) (reviewType : String) (now : Nat) (sr : ServiceRequest)
    (hfind : findRequest db reqId = some sr)
    (hst : sr.status = RequestStatus.completed)
    (hcr : sr.customerRating = none)
    (hnot : ¬(sr.customer = c.id ∧ reviewType = "customer_to_worker")) :
    rateService db c reqId rating review reviewType now =
      (ok200 "Rating submitted successfully", saveRequest db sr) ∧
    (rateService db c reqId rating review reviewType now).2.reviews = db.reviews ∧
    (rateService db c reqId rating review reviewType now).2.workers = db.workers ∧
    findRequest (rateService db c reqId rating review reviewType now).2 reqId = some sr := by
  have hguard : ((sr.customer == c.id) && (reviewType == "customer_to_worker")) = false := by
    by_cases h1 : sr.customer = c.id
    · have h2 : reviewType ≠ "customer_to_worker" := fun h2 => hnot ⟨h1, h2⟩
      simp [h2]
    · simp [h1]
  have hmain : rateService db c reqId rating review reviewType now =
      (ok200 "Rating submitted successfully", saveRequest db sr) := by
    simp [rateService, hfind, hst, hcr, hguard]
  refine ⟨hmain, ?_, ?_, ?_⟩
  · rw [hmain]
    rfl
  · rw [hmain]
    rfl
  · rw [hmain]
    exact findRequest_saveRequest db sr sr reqId hfind rfl

theorem rate_mismatch_silent_noop_witness :
    rateService dbC10 ⟨99, Role.customer⟩ 1 5 none "customer_to_worker" 3 =
      (ok200 "Rating submitted successfully", saveRequest dbC10 srC10) ∧
    (rateService dbC10 ⟨99, Role.customer⟩ 1 5 none "customer_to_worker" 3).2.reviews =
      dbC10.reviews ∧
    (rateService dbC10 ⟨99, Role.customer⟩ 1 5 none "customer_to_worker" 3).2.workers =
      dbC10.workers ∧
    findRequest (rateService dbC10 ⟨99, Role.customer⟩ 1 5 none "customer_to_worker" 3).2 1 =
      some srC10 :=
  rate_mismatch_silent_noop dbC10 ⟨99, Role.customer⟩ 1 5 none "customer_to_worker" 3 srC10
    (by decide) rfl rfl (by decide)

/-- Claim C2 counterexample: Start performs no live-tracking check, so
when a tracking session was opened explicitly while the request was
accepted, a subsequent successful Start creates a second live tracking
record for the same request. -/
theorem second_live_tracking_reachable :
    (acceptService dbC2 ⟨20, Role.worker⟩ 1 1).1.success = true ∧
    (createTracking dbC2a ⟨20, Role.worker⟩ 1 none none 2).1.success = true ∧
    (startService dbC2b ⟨20, Role.worker⟩ 1 3).1.success = true ∧
    liveTrackingCount dbC2c 1 = 2 := by
  decide

/-- Claim C2 (amended): the explicit create-tracking operation refuses to
create a second live record while one exists, but the Start side effect
performs no such check: a successful Start always adds one more live
tracking record, so two live records for one request are reachable when
tracking was opened explicitly before Start. -/
theorem live_tracking_amended (db : DB) (c : Caller) (srId now : Nat)
    (coords : Option GeoPoint) (addr : Option String) :
    ((db.trackings.find? (fun t => t.serviceRequest == srId && t.isLive)).isSome →
      (createTracking db c srId coords addr now).1.success = false ∧
      (createTracking db c srId coords addr now).2 = db) ∧
    (∀ sr w, c.role = Role.worker → findRequest db srId = some sr →
      findWorkerByUser db c.id = some w → sr.worker = some w.id →
      sr.status = RequestStatus.accepted →
      (startService db c srId now).1.success = true ∧
      liveTrackingCount (startService db c srId now).2 srId =
        liveTrackingCount db srId + 1) := by
  constructor
  · intro h
    simp only [createTracking]
    repeat' split
    all_goals first
      | exact ⟨rfl, rfl⟩
      | (next hn => exact absurd h hn)
  · intro sr w hrole hfind hfw hww hst
    have hid : sr.id = srId := findRequest_id_eq hfind
    constructor
    · simp [startService, hrole, hfind, hfw, hww, hst, ok200]
    · simp [startService, hrole, hfind, hfw, hww, hst, liveTrackingCount,
        List.filter_append, hid]

theorem live_tracking_amended_witness :
    (startService dbC2b ⟨20, Role.worker⟩ 1 3).1.success = true ∧
    liveTrackingCount (startService dbC2b ⟨20, Role.worker⟩ 1 3).2 1 =
      liveTrackingCount dbC2b 1 + 1 :=
  (live_tracking_amended dbC2b ⟨20, Role.worker⟩ 1 3 none none).2 srC2acc wC2acc rfl
    (by decide) (by decide) (by decide) rfl

theorem historyLenOf_eq_find? (l : List Tracking) (tid : Nat) :
    historyLenOf l tid =
      ((l.find? (fun t => t.id == tid)).map (fun t => t.locationHistory.length)).getD 0 := by
  induction l with
  | nil => rfl
  | cons a l ih =>
    simp only [historyLenOf, List.find?]
    cases h : (a.id == tid) with
    | true => simp [h]
    | false => simp [h, ih]

theorem acceptService_trackings (db : DB) (c : Caller) (reqId now : Nat) :
    (acceptService db c reqId now).2.trackings = db.trackings := by
  simp only [acceptService]
  repeat' split
  all_goals rfl

theorem rejectService_trackings (db : DB) (c : Caller) (reqId : Nat)
    (reason : Option String) (now : Nat) :
    (rejectService db c reqId reason now).2.trackings = db.trackings := by
  simp only [rejectService]
  repeat' split
  all_goals rfl

theorem rateService_trackings (db : DB) (c : Caller) (reqId rating : Nat)
    (review : Option String) (reviewType : String) (now : Nat) :
    (rateService db c reqId rating review reviewType now).2.trackings = db.trackings := by
  simp only [rateService]
  repeat' split
  all_goals simp only [saveRequest_trackings, updateWorkerRating_trackings]

theorem step_of_trackings_eq {db2 : DB} (db : DB) (tid : Nat)
    (heq : db2.trackings = db.trackings)
    (h : (findTracking db tid).isSome = true) :
    (findTracking db2 tid).isSome = true ∧
    trackingHistoryLen db2 tid = trackingHistoryLen db tid := by
  unfold findTracking trackingHistoryLen
  rw [heq]
  exact ⟨h, rfl⟩

theorem find?_isSome_save (l : List Tracking) (t2 : Tracking) (j tid : Nat)
    (hj : t2.id = j) :
    ((l.map (fun x => if x.id == j then t2 else x)).find?
        (fun x => x.id == tid)).isSome =
      (l.find? (fun x => x.id == tid)).isSome := by
  rw [find?_map_pred]
  · cases l.find? (fun x => x.id == tid) <;> rfl
  · intro x
    by_cases hx : (x.id == j) = true
    · have hxe : x.id = j := by simpa using hx
      simp [hx, hxe, hj]
    · simp [hx]

theorem find?_isSome_updateFirst (p : Tracking → Bool) (f : Tracking → Tracking)
    (l : List Tracking) (tid : Nat) (hid : ∀ x, (f x).id = x.id) :
    ((updateFirst p f l).find? (fun x => x.id == tid)).isSome =
      (l.find? (fun x => x.id == tid)).isSome := by
  induction l with
  | nil => rfl
  | cons a l ih =>
    unfold updateFirst
    by_cases hpa : p a = true
    · rw [if_pos hpa]
      by_cases hat : (a.id == tid) = true
      · simp [List.find?, hid, hat]
      · have hatf : (a.id == tid) = false := by simpa using hat
        simp [List.find?, hid, hatf]
    · rw [if_neg hpa]
      by_cases hat : (a.id == tid) = true
      · simp [List.find?, hat]
      · have hatf : (a.id == tid) = false := by simpa using hat
        simp [List.find?, hatf, ih]

theorem find?_isSome_append (l : List Tracking) (t : Tracking) (tid : Nat)
    (h : (l.find? (fun x => x.id == tid)).isSome = true) :
    ((l ++ [t]).find? (fun x => x.id == tid)).isSome = true := by
  rw [List.find?_append]
  cases hu : l.find? (fun x => x.id == tid) with
  | none =>
    rw [hu] at h
    simp at h
  | some u => simp

/-- Replacing the first-found document `t` by an id-preserving update
whose history has the same length leaves every audited history length
unchanged. -/
theorem historyLenOf_save_eq (l : List Tracking) (t t2 : Tracking) (j tid : Nat)
    (hj : t2.id = j)
    (hfound : l.find? (fun x => x.id == j) = some t)
    (hlen : t2.locationHistory.length = t.locationHistory.length) :
    historyLenOf (l.map (fun x => if x.id == j then t2 else x)) tid =
      historyLenOf l tid := by
  rw [historyLenOf_eq_find?, historyLenOf_eq_find?, find?_map_pred]
  · cases hu : l.find? (fun x => x.id == tid) with
    | none => rfl
    | some u =>
      by_cases huj : (u.id == j) = true
      · have hu2 : u.id = j := by simpa using huj
        have hutid : u.id = tid := find?_id_eq hu
        have heqpred : l.find? (fun x => x.id == tid) = l.find? (fun x => x.id == j) := by
          apply find?_pred_congr
          intro x
          rw [← hu2, hutid]
        have hut : u = t := by
          rw [heqpred, hfound] at hu
          exact (Option.some_inj.mp hu).symm
        have htj : t.id = j := hut ▸ hu2
        simp [hut, htj, hlen]
      · have hune : u.id ≠ j := by simpa using huj
        simp [hune]
  · intro x
    by_cases hx : (x.id == j) = true
    · have hxe : x.id = j := by simpa using hx
      simp [hx, hxe, hj]
    · simp [hx]

/-- Replacing the first-found document at `j` gives that id exactly the
new document's history length. -/
theorem historyLenOf_save_self (l : List Tracking) (t t2 : Tracking) (j : Nat)
    (hj : t2.id = j)
    (hfound : l.find? (fun x => x.id == j) = some t) :
    historyLenOf (l.map (fun x => if x.id == j then t2 else x)) j =
      t2.locationHistory.length := by
  rw [historyLenOf_eq_find?, find?_map_pred]
  · have htj : t.id = j := find?_id_eq hfound
    rw [hfound]
    simp [htj]
  · intro x
    by_cases hx : (x.id == j) = true
    · have hxe : x.id = j := by simpa using hx
      simp [hx, hxe, hj]
    · simp [hx]

theorem historyLenOf_append_of_found (l : List Tracking) (t : Tracking) (tid : Nat)
    (h : (l.find? (fun x => x.id == tid)).isSome = true) :
    historyLenOf (l ++ [t]) tid = historyLenOf l tid := by
  rw [historyLenOf_eq_find?, historyLenOf_eq_find?, List.find?_append]
  cases hu : l.find? (fun x => x.id == tid) with
  | none =>
    rw [hu] at h
    simp at h
  | some u => simp

/-- Appending a document with a hitherto absent id makes it the audited
document for that id. -/
theorem historyLenOf_append_new (l : List Tracking) (t : Tracking) (tid : Nat)
    (h : l.find? (fun x => x.id == tid) = none) (hid : (t.id == tid) = true) :
    ((l ++ [t]).find? (fun x => x.id == tid)) = some t ∧
    historyLenOf (l ++ [t]) tid = t.locationHistory.length := by
  have hfind : (l ++ [t]).find? (fun x => x.id == tid) = some t := by
    rw [List.find?_append, h]
    simp [List.find?, hid]
  refine ⟨hfind, ?_⟩
  rw [historyLenOf_eq_find?, hfind]
  rfl

theorem completeService_step (db : DB) (c : Caller) (reqId : Nat) (cost : Option ℚ)
    (now tid : Nat) (h : (findTracking db tid).isSome = true) :
    (findTracking (completeService db c reqId cost now).2 tid).isSome = true ∧
    trackingHistoryLen (completeService db c reqId cost now).2 tid =
      trackingHistoryLen db tid := by
  simp only [completeService]
  repeat' split
  all_goals first
    | exact ⟨h, rfl⟩
    | exact ⟨(find?_isSome_updateFirst _ _ db.trackings tid (by intro x; rfl)).trans h,
        historyLenOf_updateFirst _ _ db.trackings tid (by intro x; rfl) (by intro x; rfl)⟩

theorem updateTrackingStatus_step (db : DB) (c : Caller) (trackingId : Nat)
    (status : String) (now tid : Nat) (h : (findTracking db tid).isSome = true) :
    (findTracking (updateTrackingStatus db c trackingId status now).2 tid).isSome = true ∧
    trackingHistoryLen (updateTrackingStatus db c trackingId status now).2 tid =
      trackingHistoryLen db tid := by
  simp only [updateTrackingStatus]
  split
  · exact ⟨h, rfl⟩
  · split
    · exact ⟨h, rfl⟩
    · next t heq =>
      split
      · exact ⟨h, rfl⟩
      · next w heqw =>
        split
        · exact ⟨h, rfl⟩
        · split
          · exact ⟨h, rfl⟩
          · next st hst =>
            have htid : t.id = trackingId := find?_id_eq heq
            have hfound : db.trackings.find? (fun x => x.id == t.id) = some t := by
              rw [htid]
              exact heq
            split
            all_goals split
            all_goals
              exact ⟨(find?_isSome_save db.trackings _ t.id tid (by rfl)).trans h,
                historyLenOf_save_eq db.trackings t _ t.id tid (by rfl) hfound (by rfl)⟩

theorem endTracking_step (db : DB) (c : Caller) (trackingId now tid : Nat)
    (h : (findTracking db tid).isSome = true) :
    (findTracking (endTracking db c trackingId now).2 tid).isSome = true ∧
    trackingHistoryLen (endTracking db c trackingId now).2 tid =
      trackingHistoryLen db tid := by
  simp only [endTracking]
  split
  · exact ⟨h, rfl⟩
  · split
    · exact ⟨h, rfl⟩
    · next t heq =>
      split
      · exact ⟨h, rfl⟩
      · next w heqw =>
        split
        · exact ⟨h, rfl⟩
        · have htid : t.id = trackingId := find?_id_eq heq
          have hfound : db.trackings.find? (fun x => x.id == t.id) = some t := by
            rw [htid]
            exact heq
          exact ⟨(find?_isSome_save db.trackings _ t.id tid (by rfl)).trans h,
            historyLenOf_save_eq db.trackings t _ t.id tid (by rfl) hfound (by rfl)⟩

theorem createTracking_step (db : DB) (c : Caller) (srId : Nat)
    (coords : Option GeoPoint) (addr : Option String) (now tid : Nat)
    (h : (findTracking db tid).isSome = true) :
    (findTracking (createTracking db c srId coords addr now).2 tid).isSome = true ∧
    trackingHistoryLen (createTracking db c srId coords addr now).2 tid =
      trackingHistoryLen db tid := by
  simp only [createTracking]
  repeat' split
  all_goals first
    | exact ⟨h, rfl⟩
    | exact ⟨find?_isSome_append db.trackings _ tid h,
        historyLenOf_append_of_found db.trackings _ tid h⟩

theorem startService_step (db : DB) (c : Caller) (reqId now tid : Nat)
    (h : (findTracking db tid).isSome = true) :
    (findTracking (startService db c reqId now).2 tid).isSome = true ∧
    trackingHistoryLen (startService db c reqId now).2 tid =
      trackingHistoryLen db tid := by
  simp only [startService]
  repeat' split
  all_goals first
    | exact ⟨h, rfl⟩
    | exact ⟨find?_isSome_append db.trackings _ tid h,
        historyLenOf_append_of_found db.trackings _ tid h⟩

theorem updateLocation_step (db : DB) (c : Caller) (i : Nat)
    (coords : Option GeoPoint) (addr : Option String) (now tid : Nat)
    (h : (findTracking db tid).isSome = true) :
    (findTracking (updateLocation db c i coords addr now).2 tid).isSome = true ∧
    trackingHistoryLen (updateLocation db c i coords addr now).2 tid =
      trackingHistoryLen db tid +
        (if i = tid ∧ (updateLocation db c i coords addr now).1.success = true
          then 1 else 0) := by
  simp only [updateLocation]
  split
  · exact ⟨h, by simp [apiErr]⟩
  · split
    · exact ⟨h, by simp [apiErr]⟩
    · next t heq =>
      split
      · exact ⟨h, by simp [apiErr]⟩
      · next w heqw =>
        split
        · exact ⟨h, by simp [apiErr]⟩
        · next hworker =>
          have htid : t.id = i := find?_id_eq heq
          have hfound : db.trackings.find? (fun x => x.id == t.id) = some t := by
            rw [htid]
            exact heq
          refine ⟨(find?_isSome_save db.trackings _ t.id tid (by rfl)).trans h, ?_⟩
          by_cases hit : i = tid
          · rw [if_pos ⟨hit, rfl⟩]
            rw [show tid = t.id from (htid.trans hit).symm]
            simp only [trackingHistoryLen, saveTracking, saveWorker_trackings]
            rw [historyLenOf_save_self db.trackings t _ t.id (by rfl) hfound]
            rw [historyLenOf_eq_find?, hfound]
            simp
          · rw [if_neg (fun hcon => hit hcon.1), Nat.add_zero]
            simp only [trackingHistoryLen, saveTracking, saveWorker_trackings]
            have hjf : (t.id == tid) = false := by
              rw [htid]
              simp [hit]
            exact historyLenOf_map_other db.trackings _ t.id tid (by rfl) hjf

/-- One operation changes the audited history length of an existing
tracking by exactly its `opDelta`, and the tracking stays present. -/
theorem applyOp_histLen_step (db : DB) (op : Op) (tid : Nat)
    (h : (findTracking db tid).isSome = true) :
    (findTracking (applyOp db op).2 tid).isSome = true ∧
    trackingHistoryLen (applyOp db op).2 tid =
      trackingHistoryLen db tid + opDelta db tid op := by
  cases op with
  | accept c reqId now =>
    exact step_of_trackings_eq db tid (acceptService_trackings db c reqId now) h
  | reject c reqId reason now =>
    exact step_of_trackings_eq db tid (rejectService_trackings db c reqId reason now) h
  | start c reqId now => exact startService_step db c reqId now tid h
  | complete c reqId cost now => exact completeService_step db c reqId cost now tid h
  | rate c reqId rating review reviewType now =>
    exact step_of_trackings_eq db tid
      (rateService_trackings db c reqId rating review reviewType now) h
  | createTrack c srId coords addr now =>
    exact createTracking_step db c srId coords addr now tid h
  | updateLoc c i coords addr now => exact updateLocation_step db c i coords addr now tid h
  | updateTrackStatus c trackingId status now =>
    exact updateTrackingStatus_step db c trackingId status now tid h
  | endTrack c trackingId now => exact endTracking_step db c trackingId now tid h

/-- Over any operation sequence, the audited history length of an
existing tracking grows by exactly the number of successful
UpdateLocation calls targeting it. -/
theorem applyOps_histLen (ops : List Op) : ∀ (db : DB) (tid : Nat),
    (findTracking db tid).isSome = true →
    (findTracking (applyOps db ops) tid).isSome = true ∧
    trackingHistoryLen (applyOps db ops) tid =
      trackingHistoryLen db tid + updateLocSuccesses db tid ops := by
  induction ops with
  | nil =>
    intro db tid h
    exact ⟨h, rfl⟩
  | cons op rest ih =>
    intro db tid h
    have hstep := applyOp_histLen_step db op tid h
    have hrest := ih (applyOp db op).2 tid hstep.1
    refine ⟨hrest.1, ?_⟩
    show trackingHistoryLen (applyOps (applyOp db op).2 rest) tid =
      trackingHistoryLen db tid +
        (opDelta db tid op + updateLocSuccesses (applyOp db op).2 tid rest)
    rw [hrest.2, hstep.2]
    omega

/-- A successful explicit tracking creation under a fresh id leaves the
new session findable with exactly the one seed history entry. -/
theorem createTracking_fresh (db : DB) (c : Caller) (srId : Nat)
    (coords : Option GeoPoint) (addr : Option String) (now : Nat)
    (hfresh : findTracking db db.nextTrackingId = none)
    (hsucc : (createTracking db c srId coords addr now).1.success = true) :
    (findTracking (createTracking db c srId coords addr now).2
        db.nextTrackingId).isSome = true ∧
    trackingHistoryLen (createTracking db c srId coords addr now).2
        db.nextTrackingId = 1 := by
  simp only [createTracking] at hsucc
  split at hsucc
  · simp [apiErr] at hsucc
  split at hsucc
  · simp [apiErr] at hsucc
  next sr heq =>
    split at hsucc
    · simp [apiErr] at hsucc
    next w heqw =>
      split at hsucc
      · simp [apiErr] at hsucc
      next hlive =>
        have hrole : c.role = Role.worker := not_not.mp (by assumption)
        have hdb : (createTracking db c srId coords addr now).2.trackings =
            db.trackings ++
              [{ id := db.nextTrackingId, serviceRequest := srId, worker := w.id,
                 customer := sr.customer, currentLocation := coords.getD ⟨0, 0⟩,
                 currentAddress := addr.getD "", destination := sr.location,
                 status := TrackingStatus.en_route, isLive := true,
                 locationHistory := [{ coordinates := coords.getD ⟨0, 0⟩, address := addr.getD "", timestamp := now }],
                 endedAt := none }] := by
          simp [createTracking, heq, heqw, hrole, hlive]
        have hpair := historyLenOf_append_new db.trackings
          { id := db.nextTrackingId, serviceRequest := srId, worker := w.id,
            customer := sr.customer, currentLocation := coords.getD ⟨0, 0⟩,
            currentAddress := addr.getD "", destination := sr.location,
            status := TrackingStatus.en_route, isLive := true,
            locationHistory := [{ coordinates := coords.getD ⟨0, 0⟩, address := addr.getD "", timestamp := now }],
            endedAt := none }
          db.nextTrackingId hfresh (by simp)
        constructor
        · show ((createTracking db c srId coords addr now).2.trackings.find?
              (fun x => x.id == db.nextTrackingId)).isSome = true
          rw [hdb, hpair.1]
          rfl
        · show historyLenOf (createTracking db c srId coords addr now).2.trackings
              db.nextTrackingId = 1
          rw [hdb, hpair.2]
          rfl

/-- A successful Start under a fresh id leaves the new session findable
with an empty history. -/
theorem startService_fresh (db : DB) (c : Caller) (srId now : Nat)
    (hfresh : findTracking db db.nextTrackingId = none)
    (hsucc : (startService db c srId now).1.success = true) :
    (findTracking (startService db c srId now).2 db.nextTrackingId).isSome = true ∧
    trackingHistoryLen (startService db c srId now).2 db.nextTrackingId = 0 := by
  simp only [startService] at hsucc
  split at hsucc
  · simp [apiErr] at hsucc
  split at hsucc
  · simp [apiErr] at hsucc
  next sr heq =>
    split at hsucc
    · simp [apiErr] at hsucc
    next w heqw =>
      split at hsucc
      · simp [apiErr] at hsucc
      next wid heqwid =>
        split at hsucc
        · simp [apiErr] at hsucc
        next hwid =>
          split at hsucc
          · simp [apiErr] at hsucc
          next hstatus =>
            have hrole : c.role = Role.worker := not_not.mp (by assumption)
            have hdb : (startService db c srId now).2.trackings =
                db.trackings ++
                  [{ id := db.nextTrackingId, serviceRequest := sr.id, worker := w.id,
                     customer := sr.customer, currentLocation := w.location,
                     currentAddress := w.locationAddress, destination := sr.location,
                     status := TrackingStatus.en_route, isLive := true,
                     locationHistory := [], endedAt := none }] := by
              simp [startService, heq, heqw, heqwid, hrole, not_not.mp hwid,
                not_not.mp hstatus]
            have hpair := historyLenOf_append_new db.trackings
              { id := db.nextTrackingId, serviceRequest := sr.id, worker := w.id,
                customer := sr.customer, currentLocation := w.location,
                currentAddress := w.locationAddress, destination := sr.location,
                status := TrackingStatus.en_route, isLive := true,
                locationHistory := [], endedAt := none }
              db.nextTrackingId hfresh (by simp)
            constructor
            · show ((startService db c srId now).2.trackings.find?
                  (fun x => x.id == db.nextTrackingId)).isSome = true
              rw [hdb, hpair.1]
              rfl
            · show historyLenOf (startService db c srId now).2.trackings
                  db.nextTrackingId = 0
              rw [hdb, hpair.2]
              rfl

/-- Claim C6 counterexample: a tracking created by the Start side effect
begins with an empty locationHistory (the schema default; Start passes no
seed entry), so after a successful Start with zero UpdateLocation calls
the history length is 0 where the claim requires 1. -/
theorem start_created_tracking_has_no_seed :
    (startService dbC6 ⟨20, Role.worker⟩ 1 5).1.success = true ∧
    (startService dbC6 ⟨20, Role.worker⟩ 1 5).2.trackings.map
        (fun t => t.locationHistory.length) = [0] := by
  decide

/-- Claim C6 (amended): locationHistory is append-only: no operation of
the embedded core shortens any history; each successful UpdateLocation
appends exactly one entry; a tracking created by the explicit
create-tracking operation starts with one seed entry, but one created by
the Start side effect starts with an empty history; consequently, after
any sequence of operations following the creation, the history length of
the created tracking equals the number of successful UpdateLocation
calls targeting it plus one on the explicit path and plus zero on the
Start path, and in general any tracking's history length grows by
exactly the number of successful UpdateLocation calls targeting it. -/
theorem location_history_amended :
    (∀ (db : DB) (op : Op) (tid : Nat),
      trackingHistoryLen db tid ≤ trackingHistoryLen (applyOp db op).2 tid) ∧
    (∀ (db : DB) (c : Caller) (srId : Nat) (coords : Option GeoPoint)
        (addr : Option String) (now : Nat),
      (createTracking db c srId coords addr now).1.success = true →
      (createTracking db c srId coords addr now).2.trackings.map
          (fun t => t.locationHistory.length) =
        db.trackings.map (fun t => t.locationHistory.length) ++ [1]) ∧
    (∀ (db : DB) (c : Caller) (srId now : Nat),
      (startService db c srId now).1.success = true →
      (startService db c srId now).2.trackings.map
          (fun t => t.locationHistory.length) =
        db.trackings.map (fun t => t.locationHistory.length) ++ [0]) ∧
    (∀ (db : DB) (c : Caller) (tid : Nat) (coords : Option GeoPoint)
        (addr : Option String) (now : Nat) (t : Tracking),
      findTracking db tid = some t →
      (updateLocation db c tid coords addr now).1.success = true →
      trackingHistoryLen (updateLocation db c tid coords addr now).2 tid =
        t.locationHistory.length + 1) ∧
    (∀ (db : DB) (c : Caller) (srId : Nat) (coords : Option GeoPoint)
        (addr : Option String) (now : Nat) (ops : List Op),
      findTracking db db.nextTrackingId = none →
      (createTracking db c srId coords addr now).1.success = true →
      trackingHistoryLen
          (applyOps (createTracking db c srId coords addr now).2 ops)
          db.nextTrackingId =
        updateLocSuccesses (createTracking db c srId coords addr now).2
          db.nextTrackingId ops + 1) ∧
    (∀ (db : DB) (c : Caller) (srId now : Nat) (ops : List Op),
      findTracking db db.nextTrackingId = none →
      (startService db c srId now).1.success = true →
      trackingHistoryLen (applyOps (startService db c srId now).2 ops)
          db.nextTrackingId =
        updateLocSuccesses (startService db c srId now).2
          db.nextTrackingId ops) ∧
    (∀ (db : DB) (tid : Nat) (ops : List Op),
      (findTracking db tid).isSome = true →
      trackingHistoryLen (applyOps db ops) tid =
        trackingHistoryLen db tid + updateLocSuccesses db tid ops) := by
  refine ⟨trackingHistoryLen_mono, ?_, ?_, ?_, ?_, ?_,
    fun db tid ops h => (applyOps_histLen ops db tid h).2⟩
  · intro db c srId coords addr now hsucc
    simp only [createTracking] at hsucc
    split at hsucc
    · simp [apiErr] at hsucc
    split at hsucc
    · simp [apiErr] at hsucc
    next sr heq =>
      split at hsucc
      · simp [apiErr] at hsucc
      next w heqw =>
        split at hsucc
        · simp [apiErr] at hsucc
        next hlive =>
          simp [createTracking, heq, heqw, hlive, not_not.mp (by assumption : ¬c.role ≠ Role.worker)]
  · intro db c srId now hsucc
    simp only [startService] at hsucc
    split at hsucc
    · simp [apiErr] at hsucc
    split at hsucc
    · simp [apiErr] at hsucc
    next sr heq =>
      split at hsucc
      · simp [apiErr] at hsucc
      next w heqw =>
        split at hsucc
        · simp [apiErr] at hsucc
        next wid heqwid =>
          split at hsucc
          · simp [apiErr] at hsucc
          next hwid =>
            split at hsucc
            · simp [apiErr] at hsucc
            next hstatus =>
              simp [startService, heq, heqw, heqwid, not_not.mp hwid,
                not_not.mp hstatus, not_not.mp (by assumption : ¬c.role ≠ Role.worker)]
  · intro db c tid coords addr now t hft hsucc
    simp only [updateLocation] at hsucc
    split at hsucc
    · simp [apiErr] at hsucc
    split at hsucc
    · simp [apiErr] at hsucc
    next t2 heq =>
      split at hsucc
      · simp [apiErr] at hsucc
      next w heqw =>
        split at hsucc
        · simp [apiErr] at hsucc
        next hworker =>
          have ht2 : t2 = t := by
            rw [heq] at hft
            exact Option.some_inj.mp hft
          subst ht2
          have htid : t2.id = tid := find?_id_eq heq
          have hrole : c.role = Role.worker := not_not.mp (by assumption)
          have hw2 : t2.worker = w.id := not_not.mp hworker
          simp [updateLocation, heq, heqw, hrole, hw2, trackingHistoryLen, saveTracking]
          rw [historyLenOf_eq_find?, find?_map_pred]
          · rw [show db.trackings.find? (fun x => x.id == tid) = some t2 from heq]
            simp
          · intro x
            by_cases hx : x.id = t2.id
            · simp [hx]
            · simp [hx]
  · intro db c srId coords addr now ops hfresh hsucc
    have hb := createTracking_fresh db c srId coords addr now hfresh hsucc
    have h := (applyOps_histLen ops _ db.nextTrackingId hb.1).2
    rw [h, hb.2]
    omega
  · intro db c srId now ops hfresh hsucc
    have hb := startService_fresh db c srId now hfresh hsucc
    have h := (applyOps_histLen ops _ db.nextTrackingId hb.1).2
    rw [h, hb.2]
    omega

theorem location_history_amended_witness :
    ((startService dbC6 ⟨20, Role.worker⟩ 1 5).2.trackings.map
        (fun t => t.locationHistory.length) =
      dbC6.trackings.map (fun t => t.locationHistory.length) ++ [0]) ∧
    (findTracking dbC6 dbC6.nextTrackingId = none ∧
      trackingHistoryLen
          (applyOps (startService dbC6 ⟨20, Role.worker⟩ 1 5).2
            [Op.updateLoc ⟨20, Role.worker⟩ 50 (some ⟨7, 8⟩) (some "x") 9])
          dbC6.nextTrackingId =
        updateLocSuccesses (startService dbC6 ⟨20, Role.worker⟩ 1 5).2
          dbC6.nextTrackingId
          [Op.updateLoc ⟨20, Role.worker⟩ 50 (some ⟨7, 8⟩) (some "x") 9]) :=
  ⟨location_history_amended.2.2.1 dbC6 ⟨20, Role.worker⟩ 1 5 (by decide),
   by decide,
   location_history_amended.2.2.2.2.2.1 dbC6 ⟨20, Role.worker⟩ 1 5
     [Op.updateLoc ⟨20, Role.worker⟩ 50 (some ⟨7, 8⟩) (some "x") 9]
     (by decide) (by decide)⟩

/-- Claim C9: the Haversine geo-distance on the R = 6371 km sphere
satisfies distance(A, A) = 0 and distance(A, B) = distance(B, A) for all
coordinate pairs. -/
theorem haversine_zero_and_symmetric :
    (∀ lat lon : ℝ, calculateDistance lat lon lat lon = 0) ∧
    (∀ lat1 lon1 lat2 lon2 : ℝ,
      calculateDistance lat1 lon1 lat2 lon2 = calculateDistance lat2 lon2 lat1 lon1) :=
  ⟨calculateDistance_self, calculateDistance_comm⟩

/-- Claim C7 counterexample: a pending, profession-matching candidate
stored at exactly (0,0) is excluded from a radius-10 query issued from the
north pole (its Haversine distance is 6371 pi / 2, about 10007 km),
although the claim says a (0,0) candidate is included regardless of
radius. -/
theorem zero_location_candidate_excluded :
    srC7.location = ⟨0, 0⟩ ∧
    srC7.serviceType = wC7.profession ∧
    srC7.status = RequestStatus.pending ∧
    srC7 ∈ dbC7.requests ∧
    srC7 ∉ (getNearbyRequests dbC7 ⟨20, Role.worker⟩ (some 90) (some 0) 10).2 := by
  refine ⟨rfl, rfl, rfl, by simp [dbC7], ?_⟩
  have hw : (getNearbyRequests dbC7 ⟨20, Role.worker⟩ (some 90) (some 0) 10).2 =
      nearbyPendingRequests dbC7 wC7 90 0 10 := by
    simp [getNearbyRequests, findWorkerByUser, dbC7, wC7]
  rw [hw]
  intro hmem
  have h := (mem_nearbyPendingRequests.mp hmem).2.2.2
  rw [show ((srC7.location.lat : ℚ) : ℝ) = 0 by norm_num [srC7],
    show ((srC7.location.lng : ℚ) : ℝ) = 0 by norm_num [srC7]] at h
  exact absurd h (not_le.mpr calculateDistance_pole_gt_ten)

/-- The boolean distance filter of the available-requests listing,
characterised propositionally. -/
theorem withinServiceArea_eq_true (w : Worker) (r : ServiceRequest) :
    withinServiceArea w r = true ↔
      ((r.location.lng = 0 ∧ r.location.lat = 0) ∨
        calculateDistance (w.location.lat : ℝ) (w.location.lng : ℝ)
          (r.location.lat : ℝ) (r.location.lng : ℝ) ≤ (w.serviceArea : ℝ)) := by
  unfold withinServiceArea
  by_cases h : r.location.lng = 0 ∧ r.location.lat = 0
  · simp [h]
  · simp [h]

/-- Membership in the worker available-requests listing. -/
theorem mem_availableRequests {db : DB} {w : Worker} {r : ServiceRequest} :
    r ∈ availableRequests db w ↔
      r ∈ db.requests ∧ r.serviceType = w.profession ∧
        r.status = RequestStatus.pending ∧
        ((r.location.lng = 0 ∧ r.location.lat = 0) ∨
          calculateDistance (w.location.lat : ℝ) (w.location.lng : ℝ)
            (r.location.lat : ℝ) (r.location.lng : ℝ) ≤ (w.serviceArea : ℝ)) := by
  simp [availableRequests, List.mem_filter, withinServiceArea_eq_true, and_assoc]
  tauto

/-- Claim C7 (amended): the (0,0) always-matching policy exception is
implemented by the worker available-requests listing, whose bound is the
worker serviceArea measured from the worker's stored location: a
profession-matching pending request stored at exactly (0,0) is always
included there regardless of any radius, and any other candidate iff its
Haversine distance from the worker's location is at most the
serviceArea. The nearby-requests query applies no such exception: every
candidate, one stored at exactly (0,0) included, is returned iff it is
pending, matches the worker profession, and its Haversine distance from
the query point is at most the radius. -/
theorem zero_location_policy_per_route :
    (∀ (db : DB) (w : Worker) (r : ServiceRequest),
      r ∈ availableRequests db w ↔
        r ∈ db.requests ∧ r.serviceType = w.profession ∧
          r.status = RequestStatus.pending ∧
          ((r.location.lng = 0 ∧ r.location.lat = 0) ∨
            calculateDistance (w.location.lat : ℝ) (w.location.lng : ℝ)
              (r.location.lat : ℝ) (r.location.lng : ℝ) ≤ (w.serviceArea : ℝ))) ∧
    (∀ (db : DB) (w : Worker) (r : ServiceRequest),
      r.location.lng = 0 → r.location.lat = 0 → r ∈ db.requests →
      r.serviceType = w.profession → r.status = RequestStatus.pending →
      r ∈ availableRequests db w) ∧
    (∀ (db : DB) (w : Worker) (lat lon radius : ℝ) (r : ServiceRequest),
      r ∈ nearbyPendingRequests db w lat lon radius ↔
        r ∈ db.requests ∧ r.serviceType = w.profession ∧
          r.status = RequestStatus.pending ∧
          calculateDistance lat lon (r.location.lat : ℝ) (r.location.lng : ℝ) ≤
            radius) := by
  refine ⟨fun db w r => mem_availableRequests, ?_,
    fun db w lat lon radius r => mem_nearbyPendingRequests⟩
  intro db w r hlng hlat hmem hprof hstat
  exact mem_availableRequests.mpr ⟨hmem, hprof, hstat, Or.inl ⟨hlng, hlat⟩⟩

theorem zero_location_policy_per_route_witness :
    srC7b ∈ availableRequests dbC7b wC7b :=
  zero_location_policy_per_route.2.1 dbC7b wC7b srC7b (by decide) (by decide)
    (by simp [dbC7b]) rfl rfl

/-- Claim C8 counterexample: with a query radius of 20000 km, a pending
matching request about 10007 km away (far beyond the worker serviceArea
of 5 km, and not at the unset location (0,0)) is returned: the matching
bound is the radius query parameter, not the worker serviceArea. -/
theorem nearby_exceeds_service_area :
    srC8 ∈ (getNearbyRequests dbC8 ⟨20, Role.worker⟩ (some 90) (some 0) 20000).2 ∧
    (wC8.serviceArea : ℝ) <
      calculateDistance 90 0 (srC8.location.lat : ℝ) (srC8.location.lng : ℝ) ∧
    srC8.location ≠ ⟨0, 0⟩ := by
  refine ⟨?_, ?_, by decide⟩
  · have hw : (getNearbyRequests dbC8 ⟨20, Role.worker⟩ (some 90) (some 0) 20000).2 =
        nearbyPendingRequests dbC8 wC8 90 0 20000 := by
      simp [getNearbyRequests, findWorkerByUser, dbC8, wC8]
    rw [hw]
    apply mem_nearbyPendingRequests.mpr
    refine ⟨by simp [dbC8], rfl, rfl, ?_⟩
    rw [show ((srC8.location.lat : ℚ) : ℝ) = 0 by norm_num [srC8],
      show ((srC8.location.lng : ℚ) : ℝ) = 1 by norm_num [srC8]]
    exact calculateDistance_pole_le
  · rw [show ((srC8.location.lat : ℚ) : ℝ) = 0 by norm_num [srC8],
      show ((srC8.location.lng : ℚ) : ℝ) = 1 by norm_num [srC8],
      show ((wC8.serviceArea : ℚ) : ℝ) = 5 by norm_num [wC8]]
    exact calculateDistance_pole_gt_five

/-- Claim C8 (amended): the worker available-requests listing satisfies
the claim: every request it returns matches the worker profession, is
pending, and either sits at the unset location (0,0) or lies within the
worker serviceArea of the worker's stored location. The nearby listing
instead bounds its results by the radius query parameter (default
10 km), independent of the worker serviceArea and with no unset-location
exception, alongside the same profession and pending requirements. -/
theorem request_listing_distance_bounds :
    (∀ (db : DB) (w : Worker) (r : ServiceRequest),
      r ∈ availableRequests db w →
      r.serviceType = w.profession ∧ r.status = RequestStatus.pending ∧
        ((r.location.lng = 0 ∧ r.location.lat = 0) ∨
          calculateDistance (w.location.lat : ℝ) (w.location.lng : ℝ)
            (r.location.lat : ℝ) (r.location.lng : ℝ) ≤ (w.serviceArea : ℝ))) ∧
    (∀ (db : DB) (w : Worker) (lat lon radius : ℝ) (r : ServiceRequest),
      r ∈ nearbyPendingRequests db w lat lon radius →
      r.serviceType = w.profession ∧ r.status = RequestStatus.pending ∧
        calculateDistance lat lon (r.location.lat : ℝ) (r.location.lng : ℝ) ≤
          radius) :=
  ⟨fun db w r h => (mem_availableRequests.mp h).2,
   fun db w lat lon radius r h => (mem_nearbyPendingRequests.mp h).2⟩

theorem request_listing_distance_bounds_witness :
    (srC7b.serviceType = wC7b.profession ∧ srC7b.status = RequestStatus.pending ∧
      ((srC7b.location.lng = 0 ∧ srC7b.location.lat = 0) ∨
        calculateDistance (wC7b.location.lat : ℝ) (wC7b.location.lng : ℝ)
          (srC7b.location.lat : ℝ) (srC7b.location.lng : ℝ) ≤
          (wC7b.serviceArea : ℝ))) ∧
    (srC8.serviceType = wC8.profession ∧ srC8.status = RequestStatus.pending ∧
      calculateDistance 90 0 (srC8.location.lat : ℝ) (srC8.location.lng : ℝ) ≤
        20000) :=
  ⟨request_listing_distance_bounds.1 dbC7b wC7b srC7b
     (mem_availableRequests.mpr
       ⟨by simp [dbC7b], rfl, rfl, Or.inl ⟨by decide, by decide⟩⟩),
   request_listing_distance_bounds.2 dbC8 wC8 90 0 20000 srC8 (by
     apply mem_nearbyPendingRequests.mpr
     refine ⟨by simp [dbC8], rfl, rfl, ?_⟩
     rw [show ((srC8.location.lat : ℚ) : ℝ) = 0 by norm_num [srC8],
       show ((srC8.location.lng : ℚ) : ℝ) = 1 by norm_num [srC8]]
     exact calculateDistance_pole_le)⟩

end OneHive
